import Mathlib

/-!
Shallow embedding of the recommendation-aggregation pipeline and its cache
layer (a React Native place-discovery app), together with proofs about the
properties its specification claims.

Embedded source files:
* the usage/quota tracker (`hasExceededFreeTier`, `trackSearch`, …),
* the aggregation engines `getRecommendations` (Google path) and
  `getRecommendationsWithFoursquare` (Foursquare path with OSM fallback),
* the grid cache in `services/storage.ts`
  (`getGridKey`, `getGridCachedResults`, `saveGridCachedResults`),
* the helpers `isChainRestaurant`, `mapFoursquareCategory`, and the caller
  `fetchVibe` in `App.tsx`.

Conventions of the embedding:
* JS numbers are modeled as `ℚ` (the source stays far from float rounding
  except in `Math.log10`, which is kept abstract: every engine definition is
  parametric in a `log10 : ℚ → ℚ` argument, and the Google engine likewise in
  the Haversine distance `dist`, so every theorem quantifies over them or
  instantiates them explicitly).
* Upstream provider calls (`getNearbyPlaces`, place-details fetches,
  `searchFoursquarePlaces`, `searchOSMActivities`, `reverseGeocode`) are
  oracles: their responses are inputs of the embedded engines, one bundle per
  retry attempt.  A `throws` flag on a bundle models a rejected promise
  escaping to the enclosing `catch`.
* JS strings are Lean `String`s; `toLowerCase`/`trim`/`includes` are
  re-implemented below on `List Char` because the core `String` versions do
  not reduce in the kernel.  `Array.prototype.sort` (stable, ES2019+) is
  modeled by a stable insertion sort parametrized by the comparator.
-/

set_option maxHeartbeats 1000000
set_option linter.unusedVariables false
set_option linter.unnecessarySimpa false

/-! ## JS string primitives -/

/-- JS `String.prototype.toLowerCase` (ASCII-adequate for the strings the
pipeline compares; the source only compares ASCII names and keywords). -/
def jsToLower (s : String) : String := ⟨s.data.map Char.toLower⟩

/-- JS `String.prototype.trim` (leading and trailing whitespace removed). -/
def jsTrim (s : String) : String :=
  ⟨((s.data.dropWhile Char.isWhitespace).reverse.dropWhile Char.isWhitespace).reverse⟩

/-- Does the character list `l` contain `pat` as a contiguous run? -/
def charsContain (pat : List Char) : List Char → Bool
  | [] => pat.isEmpty
  | c :: rest => pat.isPrefixOf (c :: rest) || charsContain pat rest

/-- JS `String.prototype.includes`. -/
def jsIncludes (s pat : String) : Bool := charsContain pat.data s.data

/-- Truthiness of an optional JS string (`undefined` and `''` are falsy). -/
def jsStrTruthy : Option String → Bool
  | none => false
  | some s => !s.isEmpty

/-! ## JS stable sort (`Array.prototype.sort` with a comparator) -/

/-- Insert `a` into `l` after every element `b` with `le b a` (so ties keep
their original relative order, as the ES2019 stable sort does). -/
def jsInsert (le : α → α → Bool) (a : α) : List α → List α
  | [] => [a]
  | b :: l => if le b a then b :: jsInsert le a l else a :: b :: l

/-- Tail of the stable sort: fold the input into an already sorted prefix. -/
def jsSortAux (le : α → α → Bool) : List α → List α → List α
  | sorted, [] => sorted
  | sorted, a :: rest => jsSortAux le (jsInsert le a sorted) rest

/-- JS `Array.prototype.sort(cmp)` where `le a b` means `cmp a b ≤ 0`. -/
def jsSortBy (le : α → α → Bool) (l : List α) : List α := jsSortAux le [] l

theorem jsInsert_perm (le : α → α → Bool) (a : α) (l : List α) :
    List.Perm (jsInsert le a l) (a :: l) := by
  induction l with
  | nil => simp [jsInsert]
  | cons b l ih =>
    simp only [jsInsert]
    by_cases h : le b a = true
    · simp only [h, if_pos rfl]
      exact (ih.cons b).trans (List.Perm.swap a b l)
    · simp [h]

theorem jsSortAux_perm (le : α → α → Bool) (l acc : List α) :
    List.Perm (jsSortAux le acc l) (acc ++ l) := by
  induction l generalizing acc with
  | nil => simp [jsSortAux]
  | cons a rest ih =>
    simp only [jsSortAux]
    refine (ih (jsInsert le a acc)).trans ?_
    have h1 : List.Perm (jsInsert le a acc ++ rest) ((a :: acc) ++ rest) :=
      (jsInsert_perm le a acc).append_right rest
    refine h1.trans ?_
    exact (@List.perm_middle _ a acc rest).symm

theorem jsSortBy_perm (le : α → α → Bool) (l : List α) :
    List.Perm (jsSortBy le l) l := by
  simpa [jsSortBy] using jsSortAux_perm le l []

theorem mem_jsSortBy {le : α → α → Bool} {l : List α} {a : α} :
    a ∈ jsSortBy le l ↔ a ∈ l := (jsSortBy_perm le l).mem_iff

/-! ## Core data model -/

/-- The app category taxonomy (`types.ts`): `EXPLORE` merged the legacy
`DO` and `SIGHT` categories. -/
inductive PlaceCategory where
  | EAT
  | DRINK
  | EXPLORE
  | UNKNOWN
deriving DecidableEq, Repr

/-- The wire value of a category (TS string enum). -/
def PlaceCategory.str : PlaceCategory → String
  | .EAT => "EAT"
  | .DRINK => "DRINK"
  | .EXPLORE => "EXPLORE"
  | .UNKNOWN => "UNKNOWN"

/-- A latitude/longitude pair in degrees (`types.ts` `Coordinates`). -/
structure Coordinates where
  latitude : ℚ
  longitude : ℚ
deriving DecidableEq, Repr

/-- The output entity (`types.ts` `Place`), restricted to the fields the
claims observe.  `rating` is the numeric content of the display string
(`none` when the string is absent or non-numeric such as `'New'` /
`'Not rated'`); `reviewCount` is the count the source renders into the
`reason`/`rating` text and re-extracts for ranking; `coord` is the
provider-resolved coordinate that the source renders into `mapLink` and uses
for its distance check.  `description`, `tags`, `reviews`, `images`, photo
and phone fields are dropped: no claim mentions them and the pipeline never
branches on them. -/
structure Place where
  id : String
  name : String
  category : PlaceCategory
  rating : Option ℚ
  reviewCount : ℕ
  coord : Option Coordinates
  isOpen : Option Bool
deriving DecidableEq, Repr

/-- An aggregation result (`{ city, places }`). -/
structure RecResult where
  city : String
  places : List Place
deriving DecidableEq, Repr

/-- Dedup normalization used throughout: `name.toLowerCase().trim()`. -/
def normName (s : String) : String := jsTrim (jsToLower s)

/-! ## Chain filter (`CHAIN_BLOCKLIST` / `isChainRestaurant`) -/

/-- Major chain restaurants to filter out (verbatim list from the source;
apostrophes written with an escape). -/
def CHAIN_BLOCKLIST : List String :=
  ["mcdonalds", "mcdonald\x27s", "burger king", "wendy\x27s", "wendys",
   "dunkin", "dunkin donuts", "dunkin\x27", "starbucks",
   "subway", "taco bell", "kfc", "popeyes", "chipotle",
   "panera bread", "five guys", "chick-fil-a", "chick fil a",
   "sonic drive-in", "sonic", "arby\x27s", "arbys",
   "pizza hut", "dominos", "domino\x27s", "papa john\x27s", "papa johns",
   "applebee\x27s", "applebees", "olive garden", "red lobster",
   "chili\x27s", "chilis", "outback steakhouse", "buffalo wild wings",
   "ihop", "denny\x27s", "dennys", "waffle house",
   "panda express", "dairy queen", "tgi fridays", "tgi friday\x27s",
   "texas roadhouse"]

/-- Check if a place name matches a chain in the blocklist. -/
def isChainRestaurant (placeName : String) : Bool :=
  let normalized := jsTrim (jsToLower placeName)
  CHAIN_BLOCKLIST.any fun chain => jsIncludes normalized chain

/-! ## Grid cache (`services/storage.ts`)

The JS object holding the cache is modeled as an insertion-ordered
association list (assignment to an existing key replaces the value in place,
assignment to a new key appends; `Object.values` lists values in insertion
order).  The source renders the grid key as the string
`"{gridLat},{gridLng}:{category | ALL}"`; since that rendering is injective
in the three components, the key is modeled as the component triple. -/

/-- A grid key: rounded latitude, rounded longitude, category part. -/
structure GridKey where
  glat : ℚ
  glng : ℚ
  cat : String
deriving DecidableEq, Repr

/-- One entry of the grid cache (`GridCacheEntry`). -/
structure GridCacheEntry where
  gridKey : GridKey
  places : List Place
  timestamp : ℚ
  searchCount : ℕ
  category : Option String
  query : Option String
deriving DecidableEq, Repr

/-- The grid cache blob (`GridCache`), as an insertion-ordered object. -/
abbrev GridCache := List (GridKey × GridCacheEntry)

/-- JS `Math.round` (half-up toward positive infinity). -/
def jsRound (q : ℚ) : ℤ := ⌊q + 1 / 2⌋

/-- Property access `cache[gridKey]`. -/
def objGet (cache : GridCache) (k : GridKey) : Option GridCacheEntry :=
  (cache.find? fun e => decide (e.1 = k)).map (·.2)

/-- Assignment `cache[gridKey] = entry`. -/
def objSet : GridCache → GridKey → GridCacheEntry → GridCache
  | [], k, v => [(k, v)]
  | (k0, v0) :: rest, k, v =>
    if k0 = k then (k, v) :: rest else (k0, v0) :: objSet rest k v

/-- Deletion `delete cache[gridKey]`. -/
def objDelete (cache : GridCache) (k : GridKey) : GridCache :=
  cache.filter fun e => decide (¬ e.1 = k)

/-- `getGridKey(lat, lng, precision = 2, category?)`: rounds both coordinates
to `precision` decimals and appends the category part (`'ALL'` when the
category is absent or, being falsy, empty). -/
def getGridKey (lat lng : ℚ) (precision : ℕ := 2) (category : Option String := none) :
    GridKey :=
  let factor : ℚ := 10 ^ precision
  let gridLat := (jsRound (lat * factor) : ℚ) / factor
  let gridLng := (jsRound (lng * factor) : ℚ) / factor
  let categoryKey := match category with
    | some c => if c.isEmpty then "ALL" else c
    | none => "ALL"
  ⟨gridLat, gridLng, categoryKey⟩

/-- `getGridCachedResults(lat, lng, category?, query?)` at wall-clock time
`now` (ms) over cache state `cache`.  Returns the looked-up places (or
`none`) together with the updated cache state (the source mutates the blob:
it deletes an expired entry, and on a hit increments `searchCount` and
refreshes `timestamp`). -/
def getGridCachedResults (lat lng : ℚ) (category query : Option String)
    (now : ℚ) (cache : GridCache) : Option (List Place) × GridCache :=
  let gridKey := getGridKey lat lng 2 category
  match objGet cache gridKey with
  | none => (none, cache)
  | some entry =>
    let ageInHours := (now - entry.timestamp) / (1000 * 60 * 60)
    if 6 < ageInHours then
      (none, objDelete cache gridKey)
    else if jsStrTruthy category && !jsStrTruthy entry.category then
      (none, cache)
    else if jsStrTruthy category && decide (entry.category ≠ category) then
      (none, cache)
    else if jsStrTruthy query && jsStrTruthy entry.query &&
        decide (entry.query ≠ query) then
      (none, cache)
    else
      let entry1 : GridCacheEntry :=
        { entry with searchCount := entry.searchCount + 1, timestamp := now }
      (some entry.places, objSet cache gridKey entry1)

/-- `saveGridCachedResults(lat, lng, places, category?, query?)` at time
`now` over cache state `cache`.  Writes the entry, then, when the blob holds
more than 100 entries, keeps only the 100 with the highest `searchCount`
(sorted by the comparator `(a, b) => b.searchCount - a.searchCount`). -/
def saveGridCachedResults (lat lng : ℚ) (places : List Place)
    (category query : Option String) (now : ℚ) (cache : GridCache) : GridCache :=
  let gridKey := getGridKey lat lng 2 category
  let prevCount : ℕ := match objGet cache gridKey with
    | some e => if e.searchCount ≠ 0 then e.searchCount + 1 else 1
    | none => 1
  let entry : GridCacheEntry :=
    { gridKey := gridKey, places := places, timestamp := now,
      searchCount := prevCount, category := category, query := query }
  let cache1 := objSet cache gridKey entry
  let entries := cache1.map (·.2)
  if 100 < entries.length then
    let sorted := jsSortBy
      (fun a b => decide ((b.searchCount : ℤ) - (a.searchCount : ℤ) ≤ 0)) entries
    let top100 := sorted.take 100
    top100.map fun e => (e.gridKey, e)
  else cache1

/-! ## Usage tracking (`services/usage.ts`) -/

/-- The fields of `UsageStats` the claims observe (`userId`, `createdAt`,
`lastSearchAt` and `favoriteCount` carry no quota information and are
dropped). -/
structure UsageStats where
  currentMonth : String
  searchCount : ℕ
  placeViewCount : ℕ
  totalSearchesAllTime : ℕ
deriving DecidableEq, Repr

/-- `FREE_TIER_LIMITS.searchesPerMonth`. -/
def searchesPerMonth : ℕ := 10

/-- `createNewMonthStats`. -/
def createNewMonthStats (currentMonth : String) (totalSearches : ℕ) : UsageStats :=
  { currentMonth := currentMonth, searchCount := 0, placeViewCount := 0,
    totalSearchesAllTime := totalSearches }

/-- `getUsageStats()`: the stored blob when its month is current, otherwise a
fresh month record preserving the all-time counter (`stored` is the persisted
blob, `curMonth` the wall-clock `YYYY-MM` month). -/
def getUsageStats (stored : Option UsageStats) (curMonth : String) : UsageStats :=
  match stored with
  | some stats =>
    if stats.currentMonth ≠ curMonth then
      createNewMonthStats curMonth stats.totalSearchesAllTime
    else stats
  | none => createNewMonthStats curMonth 0

/-- `trackSearch()`: increments the monthly and all-time counters and
persists the result. -/
def trackSearch (stored : Option UsageStats) (curMonth : String) : UsageStats :=
  let stats := getUsageStats stored curMonth
  { stats with
    searchCount := stats.searchCount + 1,
    totalSearchesAllTime := stats.totalSearchesAllTime + 1 }

/-- `hasExceededFreeTier()`. -/
def hasExceededFreeTier (stored : Option UsageStats) (curMonth : String) : Bool :=
  searchesPerMonth ≤ (getUsageStats stored curMonth).searchCount

/-! ## Foursquare service (`services/foursquare.ts`) -/

/-- `CATEGORY_MAPPING[EAT]`. -/
def eatCategoryIds : List String :=
  ["4d4b7105d754a06374d81259", "4bf58dd8d48988d1c4941735",
   "4bf58dd8d48988d16c941735", "4bf58dd8d48988d1ca941735",
   "4bf58dd8d48988d110941735", "4bf58dd8d48988d16e941735",
   "4bf58dd8d48988d16a941735", "4bf58dd8d48988d143941735"]

/-- `CATEGORY_MAPPING[DRINK]`. -/
def drinkCategoryIds : List String :=
  ["4d4b7105d754a06376d81259", "4bf58dd8d48988d116941735",
   "4bf58dd8d48988d11b941735", "4bf58dd8d48988d117941735",
   "4bf58dd8d48988d11e941735", "4bf58dd8d48988d119941735",
   "4bf58dd8d48988d1e0931735", "4bf58dd8d48988d155941735"]

/-- `CATEGORY_MAPPING[EXPLORE]`. -/
def exploreCategoryIds : List String :=
  ["4bf58dd8d48988d181941735", "4bf58dd8d48988d18f941735",
   "4bf58dd8d48988d190941735", "4bf58dd8d48988d191941735",
   "4bf58dd8d48988d1e2931735", "4deefb944765f83613cdba6e",
   "4bf58dd8d48988d12d941735", "4bf58dd8d48988d163941735",
   "4bf58dd8d48988d165941735", "4bf58dd8d48988d17b941735",
   "52e81612bcbc57f1066b7a22", "52e81612bcbc57f1066b7a14",
   "4d4b7104d754a06370d81259", "4bf58dd8d48988d17f941735",
   "4bf58dd8d48988d1ac941735", "4bf58dd8d48988d182941735",
   "4bf58dd8d48988d1e1931735", "4bf58dd8d48988d184941735",
   "52e81612bcbc57f1066b7a21", "52e81612bcbc57f1066b7a13",
   "4bf58dd8d48988d1e3931735", "58daa1558bbb0b01f18ec1b1",
   "52e81612bcbc57f1066b79eb", "4bf58dd8d48988d1e9931735",
   "4bf58dd8d48988d168941735", "4bf58dd8d48988d167941735",
   "5bae9231bedf3950379f89d4", "4bf58dd8d48988d1e4931735",
   "4bf58dd8d48988d1e5931735", "52e81612bcbc57f1066b7a2e",
   "56aa371be4b08b9a8d573541", "4bf58dd8d48988d15c941735",
   "4bf58dd8d48988d15d941735", "5032833091d4c4b30a586d60",
   "4bf58dd8d48988d159941735", "52e81612bcbc57f1066b7a0d",
   "4bf58dd8d48988d1f0931735", "52e81612bcbc57f1066b7a26",
   "5744ccdfe4b0c0459246b4c3", "4bf58dd8d48988d1e8931735",
   "4f4528bc4b90abdf24c9de85", "52e81612bcbc57f1066b7a27"]

/-- One element of a Foursquare place's `categories` array (the fields the
pipeline reads: id and display name). -/
structure FsqCategory where
  fsq_category_id : String
  name : String
deriving DecidableEq, Repr

/-- Keyword fallback deny-list inside `mapFoursquareCategory`. -/
def mapNonHospitalityKeywords : List String :=
  ["store", "shop", "retail", "clothing", "apparel", "furniture", "hardware",
   "automotive", "sporting goods", "department", "discount", "grocery",
   "supermarket", "pharmacy", "drugstore", "bank", "atm", "gas station",
   "medical", "hospital", "clinic", "butcher", "meat market", "tuxedo",
   "formal wear", "paintball"]

/-- Drink keywords of `mapFoursquareCategory` (first group). -/
def mapDrinkKeywords1 : List String :=
  ["bar", "pub", "brewery", "wine", "cocktail", "nightclub"]

/-- Drink keywords of `mapFoursquareCategory` (second group). -/
def mapDrinkKeywords2 : List String := ["coffee", "café", "cafe"]

/-- Explore keywords of `mapFoursquareCategory`. -/
def mapExploreKeywords : List String :=
  ["museum", "monument", "landmark", "historic", "gallery", "park", "garden",
   "zoo", "scenic", "trampoline", "archery", "axe throwing", "bowling",
   "arcade", "escape room", "laser tag", "go kart", "climbing", "golf",
   "mini golf", "putt", "driving range", "simulator", "theater", "theatre",
   "cinema", "skating", "spa", "pool hall", "billiard", "pool table",
   "game room", "gaming", "recreation", "fun center", "hiking", "trail",
   "internet cafe", "cyber cafe", "vr", "virtual reality", "ping pong",
   "table tennis", "badminton", "paintball", "rock wall", "bouldering"]

/-- `food`-related exception keywords of `mapFoursquareCategory`. -/
def mapFoodRelatedKeywords : List String :=
  ["food", "farmers", "restaurant", "eatery", "dining", "kitchen"]

/-- `mapFoursquareCategory(fsqCategories)`: first match the leading
category's id against `CATEGORY_MAPPING` (object entry order EAT, DRINK,
EXPLORE, UNKNOWN — the UNKNOWN list is empty), then fall back to keyword
matching on the lowercased category name. -/
def mapFoursquareCategory (fsqCategories : List FsqCategory) : PlaceCategory :=
  match fsqCategories with
  | [] => .UNKNOWN
  | c0 :: _ =>
    let categoryId := c0.fsq_category_id
    let categoryName := jsToLower c0.name
    if eatCategoryIds.contains categoryId then .EAT
    else if drinkCategoryIds.contains categoryId then .DRINK
    else if exploreCategoryIds.contains categoryId then .EXPLORE
    else
      let isFoodRelated :=
        mapFoodRelatedKeywords.any fun k => jsIncludes categoryName k
      if !isFoodRelated &&
          mapNonHospitalityKeywords.any (fun k => jsIncludes categoryName k) then
        .UNKNOWN
      else if mapDrinkKeywords1.any (fun k => jsIncludes categoryName k) then
        .DRINK
      else if mapDrinkKeywords2.any (fun k => jsIncludes categoryName k) then
        .DRINK
      else if mapExploreKeywords.any (fun k => jsIncludes categoryName k) then
        .EXPLORE
      else if isFoodRelated then .EAT
      else .UNKNOWN

/-- A Foursquare search hit (`FoursquarePlace`), restricted to the fields
the pipeline reads.  `total_ratings` is `stats?.total_ratings`; `coord` is
`geocodes.main`; `open_now` is `hours?.open_now`; `verified`, photos, tips,
address and phone fields only feed display columns of the output and are
dropped. -/
structure FsqPlace where
  fsq_place_id : String
  name : String
  categories : List FsqCategory
  rating : Option ℚ
  total_ratings : Option ℕ
  coord : Option Coordinates
  open_now : Option Bool
deriving DecidableEq, Repr

/-! ## Google path (`getRecommendations` in the gemini service)

`BYPASS_GEMINI` is `true` in the source, so `discoverPlaceNames` is never
called: every attempt starts from an empty discovery list, reverse-geocodes
the city, and (since `discoveries.length > 0` is false, which makes
`shouldFetchGoogle` true regardless of `hotAndNew` / iconic queries) always
supplements with `getNearbyPlaces`.  Detail fetches run in batches of 10
joined with `Promise.all`, which preserves list order, so they are modeled
as a plain map over the discovery list. -/

/-- A `getNearbyPlaces` hit: `name` is `displayName?.text || ''`,
`userRatingCount` folds the `|| 0` default, `id` is the optional place id
that lets the pipeline skip the search-by-name call. -/
structure NearbyPlace where
  name : String
  rating : Option ℚ
  userRatingCount : ℕ
  businessStatus : Option String
  detectedCategory : Option String
  id : Option String
deriving Repr

/-- A resolved place-details record (`getPlaceFullDetails` /
`getPlaceDetailsByIdDirect`), restricted to the fields the pipeline branches
on or copies into the output. -/
structure PlaceDetails where
  name : String
  business_status : Option String
  location : Option Coordinates
  rating : Option ℚ
  user_ratings_total : ℕ
  open_now : Option Bool
deriving Repr

/-- Everything one Google-path retry attempt obtains from the outside:
the reverse-geocoded city, the nearby search, the two detail resolvers, and
a flag modeling a rejected promise escaping to the attempt's `catch`. -/
structure GoogleAttemptResponse where
  throws : Bool
  geocodeCity : Option String
  nearby : List NearbyPlace
  detailsById : String → Option PlaceDetails
  detailsByName : String → Option PlaceDetails

/-- The non-hospitality keyword deny-list of the Google path. -/
def googleInvalidKeywords : List String :=
  ["cvs", "walgreens", "pharmacy", "drugstore", "rite aid",
   "market basket", "grocery", "supermarket", "walmart", "target", "safeway",
   "whole foods", "stop & shop", "trader joe",
   "gas station", "shell", "chevron", "exxon", "bp", "7-eleven",
   "bank", "chase", "wells fargo", "citibank", "atm",
   "clinic", "hospital", "urgent care", "medical center", "memorial hospital",
   "post office", "usps", "fedex", "ups",
   "laundromat", "dry clean", "car wash",
   "restaurant depot", "restaurant supply", "food service supply", "wholesale"]

/-- A discovery entry (name, category, optional place id; the `vibe` display
string is dropped). -/
structure PlaceDiscovery where
  name : String
  category : PlaceCategory
  placeId : Option String
deriving DecidableEq, Repr

/-- `place.detectedCategory || 'EAT'` mapped onto the enum. -/
def mapDetectedCategory (detected : Option String) : PlaceCategory :=
  let categoryStr := match detected with
    | some s => if s.isEmpty then "EAT" else s
    | none => "EAT"
  if categoryStr = "DRINK" then .DRINK
  else if categoryStr = "EXPLORE" || categoryStr = "SIGHT" || categoryStr = "DO" then
    .EXPLORE
  else .EAT

/-- Popularity of a nearby hit: `(rating || 0) * log10(reviews + 10)`. -/
def nearbyPopularity (log10 : ℚ → ℚ) (p : NearbyPlace) : ℚ :=
  (p.rating.getD 0) * log10 ((p.userRatingCount : ℚ) + 10)

/-- The `forEach` that turns sorted nearby hits into discoveries, skipping
closed businesses, deny-listed names, chains, duplicates and empty names
(`seen` is the `existingNames` set, empty at the start since the Gemini
discovery list is empty in bypass mode). -/
def googleNearbyToDiscoveries (seen : List String) :
    List NearbyPlace → List PlaceDiscovery
  | [] => []
  | place :: rest =>
    let placeName := place.name
    let normalizedName := normName placeName
    if place.businessStatus = some "CLOSED_PERMANENTLY" ||
        place.businessStatus = some "CLOSED_TEMPORARILY" then
      googleNearbyToDiscoveries seen rest
    else if googleInvalidKeywords.any (fun k => jsIncludes normalizedName k) then
      googleNearbyToDiscoveries seen rest
    else if isChainRestaurant placeName then
      googleNearbyToDiscoveries seen rest
    else if !seen.contains normalizedName && !placeName.isEmpty then
      { name := placeName, category := mapDetectedCategory place.detectedCategory,
        placeId := place.id } ::
        googleNearbyToDiscoveries (normalizedName :: seen) rest
    else
      googleNearbyToDiscoveries seen rest

/-- Phase 1B: sort the nearby hits by popularity (descending) and convert
them to discoveries. -/
def googleDiscoveries (log10 : ℚ → ℚ) (nearby : List NearbyPlace) :
    List PlaceDiscovery :=
  let sorted := jsSortBy
    (fun a b => decide (nearbyPopularity log10 b - nearbyPopularity log10 a ≤ 0))
    nearby
  googleNearbyToDiscoveries [] sorted

/-- Phase 2: resolve details for every discovery (by id when present,
otherwise by name). -/
def googleFetchDetails (r : GoogleAttemptResponse) (ds : List PlaceDiscovery) :
    List (Option PlaceDetails) :=
  ds.map fun d =>
    if jsStrTruthy d.placeId then r.detailsById (d.placeId.getD "")
    else r.detailsByName d.name

/-- Phase 3B: build the output places, skipping null details, closed
businesses, duplicate normalized names, chains, previously shown names, and
resolved locations farther than `maxDistance` from the search center.  The
source id `place-{timestamp}-{i}` is modeled by a constant (ids are opaque
to every claim); the output rating string `details.rating ? String(rating) :
undefined` is modeled by its numeric content. -/
def googleBuildPlaces (dist : Coordinates → Coordinates → ℚ)
    (coords : Coordinates) (excludePlaceNames : List String) (maxDistance : ℚ)
    (seen : List String) :
    List (PlaceDiscovery × Option PlaceDetails) → List Place
  | [] => []
  | (_, none) :: rest =>
    googleBuildPlaces dist coords excludePlaceNames maxDistance seen rest
  | (discovery, some details) :: rest =>
    if details.business_status = some "CLOSED_PERMANENTLY" ||
        details.business_status = some "CLOSED_TEMPORARILY" then
      googleBuildPlaces dist coords excludePlaceNames maxDistance seen rest
    else
      let normalizedName := normName details.name
      if seen.contains normalizedName then
        googleBuildPlaces dist coords excludePlaceNames maxDistance seen rest
      else if isChainRestaurant details.name then
        googleBuildPlaces dist coords excludePlaceNames maxDistance seen rest
      else if excludePlaceNames.any (fun e => normName e = normalizedName) then
        googleBuildPlaces dist coords excludePlaceNames maxDistance seen rest
      else if (match details.location with
          | some loc => decide (maxDistance < dist coords loc)
          | none => false) then
        googleBuildPlaces dist coords excludePlaceNames maxDistance seen rest
      else
        { id := "place", name := details.name, category := discovery.category,
          rating := match details.rating with
            | some r => if r = 0 then none else some r
            | none => none,
          reviewCount := details.user_ratings_total,
          coord := details.location, isOpen := details.open_now } ::
          googleBuildPlaces dist coords excludePlaceNames maxDistance
            (normalizedName :: seen) rest

/-- Phase 4 rating filter: keep a place when its parsed rating (0 when the
rating string is absent) reaches the minimum, or equals 0 (unrated). -/
def googleRatingFilter (isRefresh : Bool) (places : List Place) : List Place :=
  let minRating : ℚ := if isRefresh then 3 else 7 / 2
  places.filter fun p =>
    let rating := p.rating.getD 0
    decide (minRating ≤ rating) || decide (rating = 0)

/-- Is a category filter active (`categories && categories.length > 0`)? -/
def googleHasCats (categories : Option (List String)) : Bool :=
  match categories with
  | some l => !l.isEmpty
  | none => false

/-- Phase 4 sort comparator.  The review count the source re-extracts from
the `reason` text with a regex round-trips to `reviewCount`.  When the
filter is to non-EAT categories and the two popularity scores are within
15 percent, the comparator returns 0 (preserving provider order under the
stable sort); `0 / 0 = 0 < 3/20` in `ℚ` where JS gets `NaN < 0.15 = false`,
but both then yield comparator value 0, so the branch agrees. -/
def googleCmp (log10 : ℚ → ℚ) (categories : Option (List String))
    (a b : Place) : ℚ :=
  let ratingA := a.rating.getD 0
  let ratingB := b.rating.getD 0
  let reviewsA := (a.reviewCount : ℚ)
  let reviewsB := (b.reviewCount : ℚ)
  let popularityA := ratingA * log10 (reviewsA + 10)
  let popularityB := ratingB * log10 (reviewsB + 10)
  if googleHasCats categories &&
      !(categories.getD []).contains "EAT" then
    let popularityDiff := |popularityA - popularityB| / max popularityA popularityB
    if popularityDiff < 3 / 20 then 0 else popularityB - popularityA
  else popularityB - popularityA

/-- One full non-throwing attempt of the Google path at radius
`currentRadius`: discoveries, details, build (with distance ceiling
`currentRadius * 1.5`), rating filter, category filter, popularity sort, and
the cap of 8. -/
def googleAttemptFinal (log10 : ℚ → ℚ) (dist : Coordinates → Coordinates → ℚ)
    (coords : Coordinates) (excludePlaceNames : List String)
    (categories : Option (List String)) (r : GoogleAttemptResponse)
    (currentRadius : ℚ) : List Place :=
  let discoveries := googleDiscoveries log10 r.nearby
  let placeDetails := googleFetchDetails r discoveries
  let maxDistance := currentRadius * (3 / 2)
  let places := googleBuildPlaces dist coords excludePlaceNames maxDistance []
    (discoveries.zip placeDetails)
  let isRefresh := !excludePlaceNames.isEmpty
  let ratingFiltered := googleRatingFilter isRefresh places
  let filteredPlaces :=
    if googleHasCats categories then
      ratingFiltered.filter fun p => (categories.getD []).contains p.category.str
    else ratingFiltered
  let sortedPlaces := jsSortBy
    (fun a b => decide (googleCmp log10 categories a b ≤ 0)) filteredPlaces
  sortedPlaces.take 8

/-- The attempt's city label (`reverseGeocode(coords)` with falsy fallback
`'Unknown Location'`; the re-geocoding on best-result update queries the
same oracle, so it resolves to the same label). -/
def googleAttemptCity (r : GoogleAttemptResponse) : String :=
  match r.geocodeCity with
  | some c => if c.isEmpty then "Unknown Location" else c
  | none => "Unknown Location"

/-- The post-loop / exhausted-attempts fallback: the best result when it has
places, the `Unknown Area` empty result otherwise. -/
def googleFallbackResult (best : Option RecResult) : RecResult :=
  match best with
  | some b => if !b.places.isEmpty then b else ⟨"Unknown Area", []⟩
  | none => ⟨"Unknown Area", []⟩

/-- The retry loop of `getRecommendations` (`MIN_PLACES = 8`): one list
element per remaining attempt; an empty remainder is the exhausted loop.
A throwing attempt lands in the `catch`: on the final attempt it returns the
fallback, otherwise it doubles the radius and retries.  A non-throwing
attempt updates the best (strictly larger) result, returns it once it has 8
places or no attempts remain, and otherwise doubles the radius. -/
def googleLoop (log10 : ℚ → ℚ) (dist : Coordinates → Coordinates → ℚ)
    (coords : Coordinates) (excludePlaceNames : List String)
    (categories : Option (List String)) :
    List GoogleAttemptResponse → ℚ → Option RecResult → RecResult
  | [], _, best => googleFallbackResult best
  | r :: rest, currentRadius, best =>
    if r.throws then
      if rest.isEmpty then googleFallbackResult best
      else googleLoop log10 dist coords excludePlaceNames categories rest
        (currentRadius * 2) best
    else
      let finalPlaces := googleAttemptFinal log10 dist coords excludePlaceNames
        categories r currentRadius
      let city := googleAttemptCity r
      let best1 : Option RecResult := match best with
        | some b =>
          if b.places.length < finalPlaces.length then some ⟨city, finalPlaces⟩
          else some b
        | none => some ⟨city, finalPlaces⟩
      if 8 ≤ finalPlaces.length then best1.getD ⟨city, finalPlaces⟩
      else if !rest.isEmpty then
        googleLoop log10 dist coords excludePlaceNames categories rest
          (currentRadius * 2) best1
      else best1.getD ⟨city, finalPlaces⟩

/-- `getRecommendations(coords, searchQuery?, radiusKm = 3.2, hotAndNew,
excludePlaceNames, categories?)` against the per-attempt oracle (the source
fixes `MAX_ATTEMPTS = 5`, so exactly five response bundles are consumed).
Refresh mode (a nonempty exclusion list) widens the radius by 20 percent
before the loop.  `searchQuery` and `hotAndNew` only steer the bypassed
Gemini phase and the always-true `shouldFetchGoogle` guard, so they do not
influence the bypass-mode result. -/
def getRecommendations (log10 : ℚ → ℚ) (dist : Coordinates → Coordinates → ℚ)
    (coords : Coordinates) (searchQuery : Option String) (radiusKm : ℚ)
    (hotAndNew : Bool) (excludePlaceNames : List String)
    (categories : Option (List String)) (oracle : ℕ → GoogleAttemptResponse) :
    RecResult :=
  let isRefresh := !excludePlaceNames.isEmpty
  let radiusKm1 := if isRefresh then radiusKm * (6 / 5) else radiusKm
  googleLoop log10 dist coords excludePlaceNames categories
    ((List.range 5).map oracle) radiusKm1 none

/-! ## Foursquare path (`getRecommendationsWithFoursquare`) -/

/-- The secondary non-hospitality name keyword list of the Foursquare path. -/
def fsqInvalidKeywords : List String :=
  ["cvs", "walgreens", "pharmacy", "drugstore", "rite aid",
   "market basket", "grocery", "supermarket", "walmart", "target", "safeway",
   "whole foods", "stop & shop", "trader joe",
   "homegoods", "home goods", "tj maxx", "tjmaxx", "marshalls", "ross",
   "butcher", "meat market", "fish market",
   "gas station", "shell", "chevron", "exxon", "bp", "7-eleven",
   "bank", "chase", "wells fargo", "citibank", "atm",
   "clinic", "hospital", "urgent care", "medical center", "memorial hospital",
   "whidden",
   "post office", "usps", "fedex", "ups",
   "laundromat", "dry clean", "car wash",
   "restaurant depot", "restaurant supply", "food service supply", "wholesale",
   "tuxedo", "tux rental", "formal wear",
   "paintball", "laser tag",
   "auto", "car dealer", "service center"]

/-- Foursquare category ids for non-hospitality places. -/
def fsqInvalidCategoryIds : List String :=
  ["4bf58dd8d48988d1fc941735", "4bf58dd8d48988d1fd941735",
   "4bf58dd8d48988d1fe941735", "52f2ab2ebcbc57f1066b8b42",
   "4bf58dd8d48988d10c951735", "4d954b0ea243a5684a65b473",
   "4bf58dd8d48988d1e2941735", "4bf58dd8d48988d10a951735",
   "4bf58dd8d48988d196941735"]

/-- Primary-category keyword list used by the secondary hospitality check. -/
def fsqNonHospitalityCategories : List String :=
  ["store", "shop", "market", "retail", "clothing", "apparel", "furniture",
   "hardware", "automotive", "sporting goods", "department", "discount",
   "pharmacy", "drugstore", "grocery", "supermarket", "bank", "atm",
   "gas station", "service station", "medical", "hospital", "clinic"]

/-- The secondary hospitality filter: drop by name keyword, by deny-listed
category id, and by clearly-retail primary category name (with the food /
farmers market exception). -/
def fsqHospitalityFilter (places : List FsqPlace) : List FsqPlace :=
  places.filter fun place =>
    let name := jsTrim (jsToLower place.name)
    let categoryIds := place.categories.map (·.fsq_category_id)
    if fsqInvalidKeywords.any (fun k => jsIncludes name k) then false
    else if categoryIds.any (fun i => fsqInvalidCategoryIds.contains i) then false
    else
      let primaryCategory := match place.categories.head? with
        | some c => jsToLower c.name
        | none => ""
      let isFoodMarket := jsIncludes primaryCategory "food" ||
        jsIncludes primaryCategory "farmers"
      let isNonHospitality := fsqNonHospitalityCategories.any fun c =>
        jsIncludes primaryCategory c
      !(isNonHospitality && !isFoodMarket)

/-- Popularity of a Foursquare hit: the 0-10 rating is halved to the 0-5
scale, then `rating * log10(reviews + 10)`. -/
def fsqPopularity (log10 : ℚ → ℚ) (p : FsqPlace) : ℚ :=
  ((p.rating.getD 0) / 2) * log10 (((p.total_ratings.getD 0 : ℕ) : ℚ) + 10)

/-- Sort Foursquare hits by popularity, descending. -/
def fsqSortPlaces (log10 : ℚ → ℚ) (places : List FsqPlace) : List FsqPlace :=
  jsSortBy
    (fun a b => decide (fsqPopularity log10 b - fsqPopularity log10 a ≤ 0))
    places

/-- Drop chains and previously shown names. -/
def fsqChainExcludeFilter (excludePlaceNames : List String)
    (places : List FsqPlace) : List FsqPlace :=
  places.filter fun place =>
    let name := jsTrim (jsToLower place.name)
    if isChainRestaurant place.name then false
    else if excludePlaceNames.any (fun e => jsTrim (jsToLower e) = name) then false
    else true

/-- Convert one Foursquare hit to the output shape; `UNKNOWN`-category hits
are dropped (`null` in the source).  The display rating string
(`formatFoursquareRating`: falsy rating gives `'New'`, otherwise the halved
rating rendered to one decimal) is modeled by its numeric content,
un-rounded. -/
def fsqToPlace (fsqPlace : FsqPlace) : Option Place :=
  let category := mapFoursquareCategory fsqPlace.categories
  if category = .UNKNOWN then none
  else some
    { id := fsqPlace.fsq_place_id, name := fsqPlace.name, category := category,
      rating := match fsqPlace.rating with
        | some r => if r = 0 then none else some (r / 2)
        | none => none,
      reviewCount := fsqPlace.total_ratings.getD 0,
      coord := fsqPlace.coord, isOpen := fsqPlace.open_now }

/-- One Foursquare attempt's conversion pipeline, given the provider
response: hospitality filter, popularity sort, chain and previously-shown
filter, cap of 20, conversion with `UNKNOWN` dropped. -/
def fsqAttemptPlaces (log10 : ℚ → ℚ) (excludePlaceNames : List String)
    (fsqPlaces : List FsqPlace) : List Place :=
  let hospitalityPlaces := fsqHospitalityFilter fsqPlaces
  let sortedPlaces := fsqSortPlaces log10 hospitalityPlaces
  let filteredPlaces := fsqChainExcludeFilter excludePlaceNames sortedPlaces
  (filteredPlaces.take 20).filterMap fsqToPlace

/-- An OSM Overpass hit as returned by `searchOSMActivities` (name tag and
node/way coordinate; address tags only feed display fields). -/
structure OsmPlace where
  name : String
  coord : Option Coordinates
deriving DecidableEq, Repr

/-- Convert an OSM hit to the output shape (`category` is always `EXPLORE`,
the rating display string is the non-numeric `'Not rated'`). -/
def osmToPlace (osm : OsmPlace) : Place :=
  { id := "osm", name := if osm.name.isEmpty then "Unknown" else osm.name,
    category := .EXPLORE, rating := none, reviewCount := 0,
    coord := osm.coord, isOpen := none }

/-- Merge OSM fallback results into the Foursquare result, deduplicating by
lowercased (not trimmed) name equality against the accumulated list. -/
def mergeOsmPlaces (finalPlaces osmFormattedPlaces : List Place) : List Place :=
  osmFormattedPlaces.foldl
    (fun merged osmPlace =>
      if merged.any (fun p => jsToLower p.name = jsToLower osmPlace.name) then
        merged
      else merged ++ [osmPlace])
    finalPlaces

/-- Everything one Foursquare attempt obtains from the outside: the search
response, the OSM fallback response (`none` models the `osmError` catch),
and a flag for a rejected promise escaping to the run-level `catch`. -/
structure FsqAttemptResponse where
  throws : Bool
  fsq : List FsqPlace
  osm : Option (List OsmPlace)

/-- String categories to enum filters (`SIGHT` and `DO` map onto
`EXPLORE`). -/
def fsqCategoryFilters (categories : List String) : List PlaceCategory :=
  categories.filterMap fun cat =>
    if cat = "EAT" then some .EAT
    else if cat = "DRINK" then some .DRINK
    else if cat = "EXPLORE" || cat = "SIGHT" || cat = "DO" then some .EXPLORE
    else none

/-- The retry loop of `getRecommendationsWithFoursquare`
(`MAX_ATTEMPTS = 3`; `MIN_PLACES` is 4 when the filters include `EXPLORE`
and 8 otherwise).  One list element per remaining attempt.  A throwing
attempt escapes the whole loop to the run-level `catch`, which returns the
empty result.  An empty search response, or too few converted places,
widens the radius by 1.5 when attempts remain and otherwise falls back to
the Google path (with the caller's original radius).  With category filters
active, a starved filtered set widens the radius when attempts remain; on
the last attempt an `EXPLORE` starvation triggers the OSM merge, and other
categories return the starved set as is. -/
def fsqLoop (log10 : ℚ → ℚ) (dist : Coordinates → Coordinates → ℚ)
    (coords : Coordinates) (searchQuery : Option String) (radiusKm : ℚ)
    (hotAndNew : Bool) (excludePlaceNames : List String)
    (categories : List String) (googleOracle : ℕ → GoogleAttemptResponse)
    (city : String) :
    List FsqAttemptResponse → ℚ → RecResult
  | [], _ => ⟨city, []⟩
  | r :: rest, currentRadius =>
    let categoryFilters := fsqCategoryFilters categories
    let minPlaces : ℕ := if categoryFilters.contains .EXPLORE then 4 else 8
    if r.throws then ⟨city, []⟩
    else if r.fsq.isEmpty then
      if !rest.isEmpty then
        fsqLoop log10 dist coords searchQuery radiusKm hotAndNew
          excludePlaceNames categories googleOracle city rest
          (currentRadius * (3 / 2))
      else
        getRecommendations log10 dist coords searchQuery radiusKm hotAndNew
          excludePlaceNames (some categories) googleOracle
    else
      let places := fsqAttemptPlaces log10 excludePlaceNames r.fsq
      if places.length < minPlaces then
        if !rest.isEmpty then
          fsqLoop log10 dist coords searchQuery radiusKm hotAndNew
            excludePlaceNames categories googleOracle city rest
            (currentRadius * (3 / 2))
        else
          getRecommendations log10 dist coords searchQuery radiusKm hotAndNew
            excludePlaceNames (some categories) googleOracle
      else if !categoryFilters.isEmpty then
        let finalPlaces := places.filter fun p => categoryFilters.contains p.category
        if finalPlaces.length < minPlaces && !rest.isEmpty then
          fsqLoop log10 dist coords searchQuery radiusKm hotAndNew
            excludePlaceNames categories googleOracle city rest
            (currentRadius * (3 / 2))
        else if finalPlaces.length < minPlaces &&
            categoryFilters.contains .EXPLORE then
          match r.osm with
          | some osmPlaces =>
            let osmFormattedPlaces := osmPlaces.map osmToPlace
            let mergedPlaces := mergeOsmPlaces finalPlaces osmFormattedPlaces
            if minPlaces ≤ mergedPlaces.length then ⟨city, mergedPlaces.take 18⟩
            else ⟨city, mergedPlaces⟩
          | none => ⟨city, finalPlaces⟩
        else if finalPlaces.length < minPlaces then ⟨city, finalPlaces⟩
        else ⟨city, finalPlaces.take 18⟩
      else ⟨city, places.take 18⟩

/-- `getRecommendationsWithFoursquare(coords, searchQuery?, radiusKm = 3.2,
hotAndNew, excludePlaceNames, categories)`: reverse-geocode the city
(`|| 'Unknown Location'`), then run the three-attempt loop; the run-level
`catch` reuses the same geocode oracle for its city label. -/
def getRecommendationsWithFoursquare (log10 : ℚ → ℚ)
    (dist : Coordinates → Coordinates → ℚ) (coords : Coordinates)
    (searchQuery : Option String) (radiusKm : ℚ) (hotAndNew : Bool)
    (excludePlaceNames : List String) (categories : List String)
    (geocodeCity : Option String) (oracle : ℕ → FsqAttemptResponse)
    (googleOracle : ℕ → GoogleAttemptResponse) : RecResult :=
  let city := match geocodeCity with
    | some c => if c.isEmpty then "Unknown Location" else c
    | none => "Unknown Location"
  fsqLoop log10 dist coords searchQuery radiusKm hotAndNew excludePlaceNames
    categories googleOracle city ((List.range 3).map oracle) radiusKm

/-- The place lists a single Foursquare attempt can hand back through the
terminal branches of the retry loop: the capped unfiltered conversion, the
category-filtered set (starved or capped), or — when the response carries an
OSM batch — the OSM-merged set (capped or not).  This enumerates exactly the
non-retrying, non-delegating exits of `fsqLoop` for the response `r`. -/
def fsqAttemptDerives (log10 : ℚ → ℚ) (excludePlaceNames : List String)
    (categories : List String) (r : FsqAttemptResponse)
    (P : List Place) : Prop :=
  let places := fsqAttemptPlaces log10 excludePlaceNames r.fsq
  let categoryFilters := fsqCategoryFilters categories
  let finalPlaces := places.filter fun p => categoryFilters.contains p.category
  P = places.take 18 ∨ P = finalPlaces ∨ P = finalPlaces.take 18 ∨
  (∃ osmPlaces, r.osm = some osmPlaces ∧
    (P = mergeOsmPlaces finalPlaces (osmPlaces.map osmToPlace) ∨
     P = (mergeOsmPlaces finalPlaces (osmPlaces.map osmToPlace)).take 18))

/-! ## The caller (`fetchVibe` in `App.tsx`)

Only the quota/cache control flow is modeled; UI state (loading flags, city
labels, load-more bookkeeping) and the last-search cache write are dropped.
The aggregation call itself is abstracted by its result `api` (either engine
may serve it); `now` and `month` stand for the device clock. -/

/-- The pieces of persistent state `fetchVibe` reads and writes. -/
structure AppWorld where
  usage : Option UsageStats
  month : String
  now : ℚ
  grid : GridCache
  hidden : List String
deriving DecidableEq, Repr

/-- The observable outcome of one `fetchVibe` call: the updated persistent
state, whether the free-tier gate blocked the call, whether the grid cache
served it, and the places handed to the UI. -/
structure FetchOutcome where
  world : AppWorld
  blocked : Bool
  gridCacheHit : Bool
  shown : Option (List Place)
deriving DecidableEq, Repr

/-- `categoriesArray.length === 1 ? categoriesArray[0] : undefined`. -/
def fetchCategoryKey (categories : List String) : Option String :=
  match categories with
  | [c] => some c
  | _ => none

/-- `fetchVibe(latitude, longitude, query?, append, excludePlaces)`:
the free-tier gate runs first on non-append calls; then non-append calls
probe the grid cache; a hit (a nonempty cached list) replaces the API call;
hidden names are filtered; non-append calls then record the search in the
usage stats and, when the result did not come from the grid cache, write it
back to the grid cache. -/
def fetchVibe (w : AppWorld) (latitude longitude : ℚ) (query : Option String)
    (append : Bool) (categories : List String) (api : RecResult) :
    FetchOutcome :=
  if !append && hasExceededFreeTier w.usage w.month then
    { world := w, blocked := true, gridCacheHit := false, shown := none }
  else
    let categoryKey := fetchCategoryKey categories
    let lookup :=
      if !append then
        getGridCachedResults latitude longitude categoryKey query w.now w.grid
      else (none, w.grid)
    let cachedPlaces := lookup.1
    let grid1 := lookup.2
    let gridCacheHit := match cachedPlaces with
      | some ps => !ps.isEmpty
      | none => false
    let data : RecResult :=
      if gridCacheHit then ⟨"", cachedPlaces.getD []⟩ else api
    let filteredPlaces := data.places.filter fun place =>
      !w.hidden.contains place.name
    if append then
      { world := { w with grid := grid1 }, blocked := false,
        gridCacheHit := gridCacheHit, shown := some filteredPlaces }
    else
      let usage1 := trackSearch w.usage w.month
      let grid2 :=
        if !gridCacheHit then
          saveGridCachedResults latitude longitude filteredPlaces categoryKey
            query w.now grid1
        else grid1
      { world := { w with usage := some usage1, grid := grid2 },
        blocked := false, gridCacheHit := gridCacheHit,
        shown := some filteredPlaces }

/-! ## Haversine distance (`calculateDistance`)

The float trigonometry of the source is embedded over `ℝ` (hence
noncomputable); `atan2` is written out as the standard piecewise definition
of JS `Math.atan2`. -/

/-- JS `Math.atan2 y x`. -/
noncomputable def atan2 (y x : ℝ) : ℝ :=
  if 0 < x then Real.arctan (y / x)
  else if x < 0 ∧ 0 ≤ y then Real.arctan (y / x) + Real.pi
  else if x < 0 ∧ y < 0 then Real.arctan (y / x) - Real.pi
  else if x = 0 ∧ 0 < y then Real.pi / 2
  else if x = 0 ∧ y < 0 then -(Real.pi / 2)
  else 0

/-- `calculateDistance(lat1, lon1, lat2, lon2)`: the Haversine distance in
kilometers with Earth radius 6371 km, exactly as in the source. -/
noncomputable def haversineKm (a b : Coordinates) : ℝ :=
  let lat1 : ℝ := (a.latitude : ℚ)
  let lon1 : ℝ := (a.longitude : ℚ)
  let lat2 : ℝ := (b.latitude : ℚ)
  let lon2 : ℝ := (b.longitude : ℚ)
  let dLat := (lat2 - lat1) * Real.pi / 180
  let dLon := (lon2 - lon1) * Real.pi / 180
  let s :=
    Real.sin (dLat / 2) * Real.sin (dLat / 2) +
    Real.cos (lat1 * Real.pi / 180) * Real.cos (lat2 * Real.pi / 180) *
      Real.sin (dLon / 2) * Real.sin (dLon / 2)
  let c := 2 * atan2 (Real.sqrt s) (Real.sqrt (1 - s))
  6371 * c

/-! ## The literal rating filter predicate (`parseFloat` form)

Phase 4 of `getRecommendations` filters on
`p.rating ? parseFloat(p.rating) : 0`, so the predicate over the raw
optional rating string is embedded separately, with a `parseFloat` model
(`none` encodes `NaN`; a `NaN` rating fails both comparisons). -/

/-- Digits of the integer part (longest prefix of decimal digits). -/
def parseDigits : List Char → ℕ → ℕ × List Char × Bool
  | [], acc => (acc, [], false)
  | c :: rest, acc =>
    if c.isDigit then
      let r := parseDigits rest (acc * 10 + (c.toNat - 48))
      (r.1, r.2.1, true)
    else (acc, c :: rest, false)

/-- Fraction digits after the decimal point, as numerator and scale. -/
def parseFracDigits : List Char → ℚ → ℚ → ℚ × Bool
  | [], _, acc => (acc, false)
  | c :: rest, scale, acc =>
    if c.isDigit then
      let r := parseFracDigits rest (scale / 10) (acc + (c.toNat - 48) * scale)
      (r.1, true)
    else (acc, false)

/-- JS `parseFloat` restricted to plain decimal spellings (skips leading
whitespace, optional sign, digits, optional fraction, ignores any trailing
garbage — exactly the shapes the pipeline produces plus arbitrary
non-numeric strings, which yield `NaN`, encoded `none`).  Exponents and
`Infinity` spellings never occur in the pipeline and parse as `NaN` here. -/
def jsParseFloat (s : String) : Option ℚ :=
  let t := s.data.dropWhile Char.isWhitespace
  let sign : ℚ × List Char := match t with
    | '-' :: r => (-1, r)
    | '+' :: r => (1, r)
    | r => (1, r)
  let ip := parseDigits sign.2 0
  let intDigits := ip.2.2
  let afterInt := ip.2.1
  match afterInt with
  | '.' :: r =>
    let fp := parseFracDigits r (1 / 10) 0
    if intDigits || fp.2 then some (sign.1 * ((ip.1 : ℚ) + fp.1)) else none
  | _ => if intDigits then some (sign.1 * (ip.1 : ℚ)) else none

/-- The phase-4 filter predicate over the raw optional rating string:
`const rating = p.rating ? parseFloat(p.rating) : 0;
 return rating >= minRating || rating === 0`. -/
def ratingFilterKeeps (rating : Option String) (minRating : ℚ) : Bool :=
  let parsed : Option ℚ := match rating with
    | none => some 0
    | some s => if s.isEmpty then some 0 else jsParseFloat s
  match parsed with
  | none => false
  | some r => decide (minRating ≤ r) || decide (r = 0)

/-! ## Concrete inputs used by witnesses and counterexamples -/

/-- Abstract stand-in for `Math.log10` when a closed statement needs a
concrete instance (monotone on the nonnegative inputs the pipeline feeds
it).  Every counterexample below feeds candidates with identical popularity
inputs, so its choice never influences those results. -/
def log10Model : ℚ → ℚ := fun q => q

/-- Concrete stand-in for the float Haversine when a closed statement needs
a computable distance (the taxicab distance in degrees). -/
def distModel : Coordinates → Coordinates → ℚ := fun a b =>
  |b.latitude - a.latitude| + |b.longitude - a.longitude|

/-- A sample stored place for cache witnesses. -/
def wPlace : Place :=
  { id := "w1", name := "Pizza Town", category := .EAT, rating := some 4,
    reviewCount := 12, coord := none, isOpen := none }

/-- A grid cache already holding 100 distinct keys, each entry looked up
once after its store (`searchCount = 2`). -/
def fullGrid100 : GridCache :=
  (List.range 100).map fun i =>
    (⟨(i : ℚ), 0, "ALL"⟩,
     { gridKey := ⟨(i : ℚ), 0, "ALL"⟩, places := [], timestamp := 0,
       searchCount := 2, category := none, query := none })

/-- A persistent-state snapshot with the monthly quota already consumed and
a fresh, nonempty grid-cache entry for the searched cell. -/
def quotaWorld : AppWorld :=
  { usage := some ⟨"2026-10", 10, 3, 25⟩,
    month := "2026-10", now := 0,
    grid := saveGridCachedResults 1 2 [wPlace] none none 0 [],
    hidden := [] }

/-- A Foursquare category record that classifies as a cafe (`DRINK` via the
keyword fallback; its id is in no mapping table). -/
def cafeCategory : FsqCategory := ⟨"cat-generic", "cafe"⟩

/-- A rating-free Foursquare cafe named `n` with id `i`, optionally located
at `c` (rating-free so that every popularity comparison ties and the sort
order is independent of the `log10` instance). -/
def mkCafe (i n : String) (c : Option Coordinates) : FsqPlace :=
  { fsq_place_id := i, name := n, categories := [cafeCategory],
    rating := none, total_ratings := none, coord := c, open_now := none }

/-- Eight cafes of which two share the name `Twin Cafe`. -/
def dupFsqPlaces : List FsqPlace :=
  [mkCafe "f1" "Twin Cafe" none, mkCafe "f2" "Twin Cafe" none,
   mkCafe "f3" "Cafe Alpha" none, mkCafe "f4" "Cafe Beta" none,
   mkCafe "f5" "Cafe Gamma" none, mkCafe "f6" "Cafe Delta" none,
   mkCafe "f7" "Cafe Epsilon" none, mkCafe "f8" "Cafe Zeta" none]

/-- A Google oracle whose every attempt throws (every upstream call
rejects). -/
def googleOracleThrows : ℕ → GoogleAttemptResponse :=
  fun _ => ⟨true, none, [], fun _ => none, fun _ => none⟩

/-- A Foursquare oracle answering every attempt with the duplicate list. -/
def dupFsqOracle : ℕ → FsqAttemptResponse :=
  fun _ => ⟨false, dupFsqPlaces, some []⟩

/-- A Foursquare category record classifying as a restaurant (`EAT` via the
food-related keyword fallback). -/
def dinerCategory : FsqCategory := ⟨"cat-rest", "restaurant"⟩

/-- A rating-free Foursquare restaurant named `n` with id `i`. -/
def mkDiner (i n : String) : FsqPlace :=
  { fsq_place_id := i, name := n, categories := [dinerCategory],
    rating := none, total_ratings := none, coord := none, open_now := none }

/-- Four restaurants and no `EXPLORE` venue: enough places overall, but a
starved `EXPLORE` filter. -/
def dinersFsqPlaces : List FsqPlace :=
  [mkDiner "d1" "Diner One", mkDiner "d2" "Diner Two",
   mkDiner "d3" "Diner Three", mkDiner "d4" "Diner Four"]

/-- An OSM fallback hit named after a chain. -/
def osmStarbucks : OsmPlace := ⟨"Starbucks Coffee", none⟩

/-- A Foursquare oracle: two empty attempts, then restaurants plus the
chain-named OSM fallback on the final attempt. -/
def osmChainOracle : ℕ → FsqAttemptResponse := fun n =>
  if n = 2 then ⟨false, dinersFsqPlaces, some [osmStarbucks]⟩
  else ⟨false, [], none⟩

/-- A Google nearby hit carrying a place id but no rating. -/
def quietNearby : NearbyPlace :=
  { name := "Quiet Corner", rating := none, userRatingCount := 0,
    businessStatus := none, detectedCategory := some "EAT",
    id := some "pid1" }

/-- Details for `Quiet Corner`: no rating, no location. -/
def quietDetails : PlaceDetails :=
  { name := "Quiet Corner", business_status := none, location := none,
    rating := none, user_ratings_total := 0, open_now := none }

/-- A Google oracle whose every attempt finds only the unrated
`Quiet Corner`. -/
def unratedOracle : ℕ → GoogleAttemptResponse := fun _ =>
  ⟨false, some "Testville", [quietNearby],
   fun i => if i = "pid1" then some quietDetails else none, fun _ => none⟩

/-- The place `getRecommendations` builds for `Quiet Corner`. -/
def quietPlace : Place :=
  { id := "place", name := "Quiet Corner", category := .EAT, rating := none,
    reviewCount := 0, coord := none, isOpen := none }

/-- A Google nearby hit that resolves to a located, rated place. -/
def harborNearby : NearbyPlace :=
  { name := "Harbor View", rating := some 4, userRatingCount := 100,
    businessStatus := none, detectedCategory := some "EAT",
    id := some "pid2" }

/-- Details for `Harbor View`: rated 4, located one degree north. -/
def harborDetails : PlaceDetails :=
  { name := "Harbor View", business_status := none,
    location := some ⟨0, 1⟩, rating := some 4, user_ratings_total := 100,
    open_now := some true }

/-- A Google oracle whose every attempt finds only `Harbor View`. -/
def locatedOracle : ℕ → GoogleAttemptResponse := fun _ =>
  ⟨false, some "Testville", [harborNearby],
   fun i => if i = "pid2" then some harborDetails else none, fun _ => none⟩

/-- The place `getRecommendations` builds for `Harbor View`. -/
def harborPlace : Place :=
  { id := "place", name := "Harbor View", category := .EAT,
    rating := some 4, reviewCount := 100, coord := some ⟨0, 1⟩,
    isOpen := some true }

/-- Seven ordinary cafes plus one sitting at the north pole. -/
def farFsqPlaces : List FsqPlace :=
  [mkCafe "g1" "Cafe Alpha" none, mkCafe "g2" "Cafe Beta" none,
   mkCafe "g3" "Cafe Gamma" none, mkCafe "g4" "Cafe Delta" none,
   mkCafe "g5" "Cafe Epsilon" none, mkCafe "g6" "Cafe Zeta" none,
   mkCafe "g7" "Cafe Eta" none, mkCafe "g8" "Polar Cafe" (some ⟨90, 0⟩)]

/-- A Foursquare oracle answering every attempt with the polar list. -/
def farFsqOracle : ℕ → FsqAttemptResponse := fun _ =>
  ⟨false, farFsqPlaces, some []⟩

/-- The place the Foursquare path builds for `Polar Cafe`. -/
def polarPlace : Place :=
  { id := "g8", name := "Polar Cafe", category := .DRINK, rating := none,
    reviewCount := 0, coord := some ⟨90, 0⟩, isOpen := none }

/-- A Foursquare oracle that never throws and never finds anything. -/
def emptyFsqOracle : ℕ → FsqAttemptResponse := fun _ => ⟨false, [], none⟩

/-- A Foursquare oracle whose every attempt rejects. -/
def throwingFsqOracle : ℕ → FsqAttemptResponse := fun _ => ⟨true, [], none⟩

/-- Seven distinct rating-free cafes. -/
def sevenCafesFsq : List FsqPlace :=
  [mkCafe "h1" "Cafe One" none, mkCafe "h2" "Cafe Two" none,
   mkCafe "h3" "Cafe Three" none, mkCafe "h4" "Cafe Four" none,
   mkCafe "h5" "Cafe Five" none, mkCafe "h6" "Cafe Six" none,
   mkCafe "h7" "Cafe Seven" none]

/-- A Foursquare oracle that observes seven places on its first attempt and
nothing afterwards. -/
def bestLostOracle : ℕ → FsqAttemptResponse := fun n =>
  if n = 0 then ⟨false, sevenCafesFsq, some []⟩ else ⟨false, [], none⟩

/-! # Supporting lemmas and claim theorems -/

section ClaimProofs

attribute [local semireducible] Rat.mul Rat.inv Rat.add Rat.sub

/-! ### Association-list lemmas for the grid cache object -/

theorem objGet_cons (k0 k : GridKey) (v0 : GridCacheEntry) (rest : GridCache) :
    objGet ((k0, v0) :: rest) k = if k0 = k then some v0 else objGet rest k := by
  by_cases h : k0 = k <;> simp [objGet, List.find?, h]

theorem objGet_objSet_self (c : GridCache) (k : GridKey) (v : GridCacheEntry) :
    objGet (objSet c k v) k = some v := by
  induction c with
  | nil => simp [objGet, objSet, List.find?]
  | cons p rest ih =>
    obtain ⟨k0, v0⟩ := p
    by_cases h : k0 = k
    · simp [objGet_cons, objSet, h, List.find?]
    · simp only [objSet, if_neg h]
      rw [objGet_cons, if_neg h]
      exact ih

theorem objSet_append_of_not_mem (c : GridCache) (k : GridKey)
    (v : GridCacheEntry) (h : k ∉ c.map (·.1)) :
    objSet c k v = c ++ [(k, v)] := by
  induction c with
  | nil => simp [objSet]
  | cons p rest ih =>
    obtain ⟨k0, v0⟩ := p
    simp only [List.map_cons, List.mem_cons] at h
    push_neg at h
    have hk0 : ¬ k0 = k := fun hh => h.1 hh.symm
    simp only [objSet, if_neg hk0]
    simp [ih h.2]

theorem objSet_length_le (c : GridCache) (k : GridKey) (v : GridCacheEntry) :
    (objSet c k v).length ≤ c.length + 1 := by
  induction c with
  | nil => simp [objSet]
  | cons p rest ih =>
    obtain ⟨k0, v0⟩ := p
    by_cases h : k0 = k
    · simp [objSet, h]
    · simp only [objSet, if_neg h, List.length_cons]
      omega

theorem objGet_eq_none_of_not_mem (c : GridCache) (k : GridKey)
    (h : k ∉ c.map (·.1)) : objGet c k = none := by
  induction c with
  | nil => simp [objGet, List.find?]
  | cons p rest ih =>
    obtain ⟨k0, v0⟩ := p
    simp only [List.map_cons, List.mem_cons] at h
    push_neg at h
    have hk0 : ¬ k0 = k := fun hh => h.1 hh.symm
    rw [objGet_cons, if_neg hk0]
    exact ih h.2

theorem objGet_of_mem_nodup (c : GridCache) (k : GridKey) (v : GridCacheEntry)
    (hnd : (c.map (·.1)).Nodup) (hmem : (k, v) ∈ c) : objGet c k = some v := by
  induction c with
  | nil => simp at hmem
  | cons p rest ih =>
    obtain ⟨k0, v0⟩ := p
    simp only [List.map_cons, List.nodup_cons] at hnd
    rcases List.mem_cons.1 hmem with h | h
    · rw [objGet_cons]
      have hk : k0 = k := (Prod.ext_iff.1 h.symm).1
      have hv : v0 = v := (Prod.ext_iff.1 h.symm).2
      rw [if_pos hk, hv]
    · have hk0 : k0 ≠ k := by
        rintro rfl
        exact hnd.1 (by simpa using List.mem_map_of_mem (·.1) h)
      rw [objGet_cons, if_neg hk0]
      exact ih hnd.2 h

/-- With at most 99 stored entries a save cannot trigger eviction: it is a
plain object assignment. -/
theorem saveGrid_no_evict (lat lng : ℚ) (places : List Place)
    (category query : Option String) (now : ℚ) (cache : GridCache)
    (h : cache.length ≤ 99) :
    saveGridCachedResults lat lng places category query now cache =
      objSet cache (getGridKey lat lng 2 category)
        { gridKey := getGridKey lat lng 2 category, places := places,
          timestamp := now,
          searchCount := match objGet cache (getGridKey lat lng 2 category) with
            | some e => if e.searchCount ≠ 0 then e.searchCount + 1 else 1
            | none => 1,
          category := category, query := query } := by
  have hlen := objSet_length_le cache (getGridKey lat lng 2 category)
    { gridKey := getGridKey lat lng 2 category, places := places,
      timestamp := now,
      searchCount := match objGet cache (getGridKey lat lng 2 category) with
        | some e => if e.searchCount ≠ 0 then e.searchCount + 1 else 1
        | none => 1,
      category := category, query := query }
  simp only [saveGridCachedResults]
  rw [if_neg]
  simp only [List.length_map]
  omega

theorem objSet_map_fst_subset (c : GridCache) (k k1 : GridKey)
    (v : GridCacheEntry) (h : k1 ∈ (objSet c k v).map (·.1)) :
    k1 ∈ c.map (·.1) ∨ k1 = k := by
  induction c with
  | nil => simpa [objSet] using h
  | cons p rest ih =>
    obtain ⟨k0, v0⟩ := p
    by_cases hk : k0 = k
    · simp only [objSet, if_pos hk, List.map_cons, List.mem_cons] at h
      rcases h with h | h
      · right; exact h
      · left; simp [h]
    · simp only [objSet, if_neg hk, List.map_cons, List.mem_cons] at h
      rcases h with h | h
      · left; simp [h]
      · rcases ih h with h1 | h1
        · left; simp [h1]
        · right; exact h1

theorem objSet_map_snd_subset (c : GridCache) (k : GridKey)
    (v e : GridCacheEntry) (h : e ∈ (objSet c k v).map (·.2)) :
    e ∈ c.map (·.2) ∨ e = v := by
  induction c with
  | nil => simpa [objSet] using h
  | cons p rest ih =>
    obtain ⟨k0, v0⟩ := p
    by_cases hk : k0 = k
    · simp only [objSet, if_pos hk, List.map_cons, List.mem_cons] at h
      rcases h with h | h
      · right; exact h
      · left; simp [h]
    · simp only [objSet, if_neg hk, List.map_cons, List.mem_cons] at h
      rcases h with h | h
      · left; simp [h]
      · rcases ih h with h1 | h1
        · left; simp [h1]
        · right; exact h1

/-- Every key present after a save was already present or is the saved grid
key (needs the well-formedness of stored entries: the `gridKey` field agrees
with the object key, which every entry written by the source satisfies). -/
theorem saveGrid_keys_subset (lat lng : ℚ) (places : List Place)
    (category query : Option String) (now : ℚ) (cache : GridCache)
    (hwf : ∀ p ∈ cache, p.2.gridKey = p.1) (k1 : GridKey)
    (h : k1 ∈ (saveGridCachedResults lat lng places category query now
      cache).map (·.1)) :
    k1 ∈ cache.map (·.1) ∨ k1 = getGridKey lat lng 2 category := by
  classical
  simp only [saveGridCachedResults] at h
  set k := getGridKey lat lng 2 category with hk
  set entry : GridCacheEntry :=
    { gridKey := k, places := places, timestamp := now,
      searchCount := match objGet cache k with
        | some e => if e.searchCount ≠ 0 then e.searchCount + 1 else 1
        | none => 1,
      category := category, query := query } with hentry
  by_cases hbig : 100 < ((objSet cache k entry).map (·.2)).length
  · rw [if_pos hbig] at h
    simp only [List.map_map, List.mem_map] at h
    obtain ⟨e, he, hke⟩ := h
    have he2 : e ∈ jsSortBy _ ((objSet cache k entry).map (·.2)) :=
      List.take_subset _ _ he
    have he3 : e ∈ (objSet cache k entry).map (·.2) := mem_jsSortBy.1 he2
    simp only [Function.comp_apply] at hke
    rcases objSet_map_snd_subset cache k entry e he3 with h4 | h4
    · obtain ⟨p, hp, hpe⟩ := List.mem_map.1 h4
      left
      have hgk : e.gridKey = p.1 := by rw [← hpe]; exact hwf p hp
      have hkp : k1 = p.1 := by rw [← hke]; exact hgk
      rw [hkp]
      exact List.mem_map_of_mem (·.1) hp
    · right
      rw [← hke, h4]
  · rw [if_neg hbig] at h
    exact objSet_map_fst_subset cache k k1 entry h

/-- C6 (amended): when the save does not trigger capacity eviction (at most
99 other entries are cached), a save followed within the 6-hour TTL by a
lookup with the same coordinate, category and query returns exactly the
stored places (same list, same order) and leaves the entry's `searchCount`
one above its post-store value; on a full cache the freshly stored entry can
itself be evicted and the lookup then misses. -/
theorem grid_cache_roundtrip (lat lng : ℚ) (places : List Place)
    (category query : Option String) (t0 t1 : ℚ) (cache : GridCache)
    (hsize : cache.length ≤ 99)
    (hage : ¬ 6 < (t1 - t0) / (1000 * 60 * 60)) :
    (getGridCachedResults lat lng category query t1
        (saveGridCachedResults lat lng places category query t0 cache)).1 =
      some places ∧
    ∃ c0 : ℕ,
      objGet (saveGridCachedResults lat lng places category query t0 cache)
          (getGridKey lat lng 2 category) =
        some { gridKey := getGridKey lat lng 2 category, places := places,
               timestamp := t0, searchCount := c0, category := category,
               query := query } ∧
      objGet (getGridCachedResults lat lng category query t1
          (saveGridCachedResults lat lng places category query t0 cache)).2
          (getGridKey lat lng 2 category) =
        some { gridKey := getGridKey lat lng 2 category, places := places,
               timestamp := t1, searchCount := c0 + 1, category := category,
               query := query } := by
  rw [saveGrid_no_evict lat lng places category query t0 cache hsize]
  set k := getGridKey lat lng 2 category with hk
  set c0 : ℕ := match objGet cache k with
    | some e => if e.searchCount ≠ 0 then e.searchCount + 1 else 1
    | none => 1 with hc0
  set entry : GridCacheEntry :=
    { gridKey := k, places := places, timestamp := t0, searchCount := c0,
      category := category, query := query } with hentry
  have hget : objGet (objSet cache k entry) k = some entry :=
    objGet_objSet_self cache k entry
  have hstep :
      getGridCachedResults lat lng category query t1 (objSet cache k entry) =
        (some places,
          objSet (objSet cache k entry) k
            { entry with searchCount := entry.searchCount + 1,
                         timestamp := t1 }) := by
    simp only [getGridCachedResults, ← hk, hget, hentry]
    rw [if_neg hage]
    simp
  refine ⟨by rw [hstep], c0, hget, ?_⟩
  rw [hstep]
  simpa using objGet_objSet_self (objSet cache k entry) k
    { entry with searchCount := entry.searchCount + 1, timestamp := t1 }

/-- Witness for C6: a concrete roundtrip on an empty cache (store at time 0,
look up 1000 seconds later) returning the stored list with `searchCount`
bumped from 1 to 2. -/
theorem grid_cache_roundtrip_witness :
    ([] : GridCache).length ≤ 99 ∧
    ¬ (6 : ℚ) < (1000000 - 0) / (1000 * 60 * 60) ∧
    (getGridCachedResults 1 2 (some "EAT") (some "pizza") 1000000
        (saveGridCachedResults 1 2 [wPlace] (some "EAT") (some "pizza") 0 [])).1 =
      some [wPlace] := by
  refine ⟨by decide, by decide, ?_⟩
  exact (grid_cache_roundtrip 1 2 [wPlace] (some "EAT") (some "pizza") 0
    1000000 [] (by decide) (by decide)).1

/-- Counterexample for C6 as stated universally: on a cache already holding
100 entries whose `searchCount` (2) exceeds a fresh entry's initial count
(1), the capacity eviction inside the save removes the freshly written entry
itself, so the immediate lookup misses instead of returning the stored
places. -/
theorem grid_cache_roundtrip_counterexample :
    (getGridCachedResults 200 0 none none 0
        (saveGridCachedResults 200 0 [wPlace] none none 0 fullGrid100)).1 =
      none := by
  decide

/-- C7: a lookup for `DRINK` after a save under `EAT` misses (the grid keys
differ in their category part, and a save never creates the other key); and
in general a category-filtered lookup only ever hits an entry whose stored
category field equals the requested category — never a different or absent
one.  The first part assumes the stored entries are well formed (their
`gridKey` field matches their object key, as every entry the source writes
does) and that no entry sits under the `DRINK` key already. -/
theorem grid_category_isolation :
    (∀ (cache : GridCache) (lat lng : ℚ) (places : List Place)
       (query : Option String) (now t : ℚ),
      (∀ p ∈ cache, p.2.gridKey = p.1) →
      getGridKey lat lng 2 (some "DRINK") ∉ cache.map (·.1) →
      (getGridCachedResults lat lng (some "DRINK") query t
        (saveGridCachedResults lat lng places (some "EAT") none now cache)).1 =
        none) ∧
    (∀ (cache : GridCache) (lat lng : ℚ) (c : String) (query : Option String)
       (now : ℚ) (ps : List Place),
      c ≠ "" →
      (getGridCachedResults lat lng (some c) query now cache).1 = some ps →
      ∃ e, objGet cache (getGridKey lat lng 2 (some c)) = some e ∧
        e.category = some c) := by
  constructor
  · intro cache lat lng places query now t hwf habs
    have hkeys : getGridKey lat lng 2 (some "DRINK") ∉
        (saveGridCachedResults lat lng places (some "EAT") none now
          cache).map (·.1) := by
      intro hmem
      rcases saveGrid_keys_subset lat lng places (some "EAT") none now cache
        hwf _ hmem with h | h
      · exact habs h
      · have : ("DRINK" : String) = "EAT" := congrArg GridKey.cat h
        simp at this
    have hnone := objGet_eq_none_of_not_mem _ _ hkeys
    simp [getGridCachedResults, hnone]
  · intro cache lat lng c query now ps hc hhit
    simp only [getGridCachedResults] at hhit
    set k := getGridKey lat lng 2 (some c) with hk
    cases hget : objGet cache k with
    | none => rw [hget] at hhit; simp at hhit
    | some e =>
      rw [hget] at hhit
      dsimp only at hhit
      refine ⟨e, rfl, ?_⟩
      by_cases h6 : 6 < (now - e.timestamp) / (1000 * 60 * 60)
      · rw [if_pos h6] at hhit; simp at hhit
      · rw [if_neg h6] at hhit
        have hne : c.isEmpty = false := by
          rw [← Bool.not_eq_true c.isEmpty]
          simp [String.isEmpty_iff, hc]
        have htr : jsStrTruthy (some c) = true := by
          simp [jsStrTruthy, hne]
        by_cases h1 : jsStrTruthy e.category
        · by_cases h2 : e.category = some c
          · exact h2
          · exfalso
            rw [if_neg (by simp [htr, h1]), if_pos (by simp [htr, h2])] at hhit
            simp at hhit
        · exfalso
          rw [if_pos (by simp [htr, h1])] at hhit
          simp at hhit

/-- Witness for C7: part one on the empty cache at the origin, and part two
on a one-entry cache holding a `DRINK` entry that the lookup hits. -/
theorem grid_category_isolation_witness :
    (getGridCachedResults 0 0 (some "DRINK") none 0
        (saveGridCachedResults 0 0 [wPlace] (some "EAT") none 0 [])).1 =
      none ∧
    ∃ e, objGet (saveGridCachedResults 3 4 [wPlace] (some "DRINK") none 0 [])
        (getGridKey 3 4 2 (some "DRINK")) = some e ∧ e.category = some "DRINK" := by
  constructor
  · exact grid_category_isolation.1 [] 0 0 [wPlace] none 0 0 (by simp)
      (by decide)
  · exact grid_category_isolation.2
      (saveGridCachedResults 3 4 [wPlace] (some "DRINK") none 0 []) 3 4
      "DRINK" none 0 [wPlace] (by decide) (by decide)

/-- C9: the grid cache query comparison applies only when both sides carry a
query.  For an unexpired entry under the looked-up key whose category
satisfies the requested filter: a query-less lookup hits the entry even when
it was stored with a query, and a lookup with any query hits an entry stored
without one. -/
theorem grid_query_asymmetry (cache : GridCache) (lat lng : ℚ)
    (cat : Option String) (q : String) (now : ℚ) (entry : GridCacheEntry)
    (hget : objGet cache (getGridKey lat lng 2 cat) = some entry)
    (hage : ¬ 6 < (now - entry.timestamp) / (1000 * 60 * 60))
    (hcat : jsStrTruthy cat = true →
      jsStrTruthy entry.category = true ∧ entry.category = cat) :
    (getGridCachedResults lat lng cat none now cache).1 = some entry.places ∧
    (entry.query = none →
      (getGridCachedResults lat lng cat (some q) now cache).1 =
        some entry.places) := by
  have hcats : (jsStrTruthy cat && !jsStrTruthy entry.category) = false ∧
      (jsStrTruthy cat && decide (entry.category ≠ cat)) = false := by
    by_cases h : jsStrTruthy cat
    · obtain ⟨h1, h2⟩ := hcat h
      simp [h, h1, h2]
    · have h0 : jsStrTruthy cat = false := by simpa using h
      simp [h0]
  constructor
  · simp only [getGridCachedResults, hget]
    rw [if_neg hage, if_neg (by rw [hcats.1]; exact Bool.false_ne_true),
      if_neg (by rw [hcats.2]; exact Bool.false_ne_true)]
    simp [jsStrTruthy]
  · intro hq
    simp only [getGridCachedResults, hget]
    rw [if_neg hage, if_neg (by rw [hcats.1]; exact Bool.false_ne_true),
      if_neg (by rw [hcats.2]; exact Bool.false_ne_true)]
    simp [jsStrTruthy, hq]

/-- Witness for C9: a cell stored with query `'pizza'` is hit by a
query-less lookup, and a cell stored without a query is hit by a lookup for
`'pizza'`. -/
theorem grid_query_asymmetry_witness :
    (getGridCachedResults 1 2 none none 0
        (saveGridCachedResults 1 2 [wPlace] none (some "pizza") 0 [])).1 =
      some [wPlace] ∧
    (getGridCachedResults 1 2 none (some "pizza") 0
        (saveGridCachedResults 1 2 [wPlace] none none 0 [])).1 =
      some [wPlace] := by
  constructor
  · exact (grid_query_asymmetry
      (saveGridCachedResults 1 2 [wPlace] none (some "pizza") 0 []) 1 2 none
      "pizza" 0
      { gridKey := ⟨1, 2, "ALL"⟩, places := [wPlace], timestamp := 0,
        searchCount := 1, category := none, query := some "pizza" }
      (by decide) (by decide) (by decide)).1
  · exact (grid_query_asymmetry
      (saveGridCachedResults 1 2 [wPlace] none none 0 []) 1 2 none
      "pizza" 0
      { gridKey := ⟨1, 2, "ALL"⟩, places := [wPlace], timestamp := 0,
        searchCount := 1, category := none, query := none }
      (by decide) (by decide) (by decide)).2 (by decide)

/-! ### Sortedness of the stable sort (needed for the eviction analysis) -/

theorem jsInsert_pairwise {le : α → α → Bool}
    (htot : ∀ a b, le a b = true ∨ le b a = true)
    (htrans : ∀ a b c, le a b = true → le b c = true → le a c = true)
    (a : α) (l : List α) (hl : l.Pairwise (le · · = true)) :
    (jsInsert le a l).Pairwise (le · · = true) := by
  induction l with
  | nil => simp [jsInsert]
  | cons b l ih =>
    rcases List.pairwise_cons.1 hl with ⟨hb, hl2⟩
    by_cases h : le b a = true
    · simp only [jsInsert, if_pos h]
      refine List.pairwise_cons.2 ⟨?_, ih hl2⟩
      intro c hc
      rcases List.mem_cons.1 ((jsInsert_perm le a l).mem_iff.1 hc) with h1 | h1
      · rw [h1]; exact h
      · exact hb c h1
    · simp only [jsInsert, if_neg h]
      have hab : le a b = true := (htot a b).resolve_right (by simpa using h)
      refine List.pairwise_cons.2 ⟨?_, hl⟩
      intro c hc
      rcases List.mem_cons.1 hc with h1 | h1
      · rw [h1]; exact hab
      · exact htrans a b c hab (hb c h1)

theorem jsSortAux_pairwise {le : α → α → Bool}
    (htot : ∀ a b, le a b = true ∨ le b a = true)
    (htrans : ∀ a b c, le a b = true → le b c = true → le a c = true)
    (l acc : List α) (hacc : acc.Pairwise (le · · = true)) :
    (jsSortAux le acc l).Pairwise (le · · = true) := by
  induction l generalizing acc with
  | nil => simpa [jsSortAux] using hacc
  | cons a rest ih =>
    simp only [jsSortAux]
    exact ih (jsInsert le a acc) (jsInsert_pairwise htot htrans a acc hacc)

theorem jsSortBy_pairwise {le : α → α → Bool}
    (htot : ∀ a b, le a b = true ∨ le b a = true)
    (htrans : ∀ a b c, le a b = true → le b c = true → le a c = true)
    (l : List α) : (jsSortBy le l).Pairwise (le · · = true) :=
  jsSortAux_pairwise htot htrans l [] (by simp)


/-- When the saved key is fresh and the cache already holds at least 100
entries, the save takes the eviction branch: sort the 101 values by
descending `searchCount`, keep 100, rebuild the object. -/
theorem saveGrid_evict (lat lng : ℚ) (places : List Place)
    (category query : Option String) (now : ℚ) (cache : GridCache)
    (hnew : getGridKey lat lng 2 category ∉ cache.map (·.1))
    (hlen : 100 ≤ cache.length) :
    saveGridCachedResults lat lng places category query now cache =
      ((jsSortBy
          (fun a b => decide ((b.searchCount : ℤ) - (a.searchCount : ℤ) ≤ 0))
          ((objSet cache (getGridKey lat lng 2 category)
            { gridKey := getGridKey lat lng 2 category, places := places,
              timestamp := now, searchCount := 1, category := category,
              query := query }).map (·.2))).take 100).map
        (fun e => (e.gridKey, e)) := by
  have hget0 : objGet cache (getGridKey lat lng 2 category) = none :=
    objGet_eq_none_of_not_mem cache _ hnew
  have hset := objSet_append_of_not_mem cache (getGridKey lat lng 2 category)
    { gridKey := getGridKey lat lng 2 category, places := places,
      timestamp := now, searchCount := 1, category := category,
      query := query } hnew
  simp only [saveGridCachedResults, hget0]
  rw [if_pos]
  rw [hset]
  simp only [List.length_map, List.length_append, List.length_cons,
    List.length_nil]
  omega

/-- Core of the eviction analysis: sorting `old ++ [entry]` by descending
`searchCount` and keeping the first 100 drops exactly `entry` when `entry`
carries the strictly smallest count. -/
theorem evictCore (old : List GridCacheEntry) (entry : GridCacheEntry)
    (hcnt_old : ∀ v ∈ old, 2 ≤ v.searchCount)
    (hcnt_new : entry.searchCount = 1)
    (hlen : old.length = 100) :
    List.Perm
      ((jsSortBy
        (fun a b => decide ((b.searchCount : ℤ) - (a.searchCount : ℤ) ≤ 0))
        (old ++ [entry])).take 100) old := by
  classical
  have htot : ∀ a b : GridCacheEntry,
      (fun a b => decide ((b.searchCount : ℤ) - (a.searchCount : ℤ) ≤ 0)) a b
        = true ∨
      (fun a b => decide ((b.searchCount : ℤ) - (a.searchCount : ℤ) ≤ 0)) b a
        = true := by
    intro a b
    simp only [decide_eq_true_eq]
    omega
  have htrans : ∀ a b c : GridCacheEntry,
      (fun a b => decide ((b.searchCount : ℤ) - (a.searchCount : ℤ) ≤ 0)) a b
        = true →
      (fun a b => decide ((b.searchCount : ℤ) - (a.searchCount : ℤ) ≤ 0)) b c
        = true →
      (fun a b => decide ((b.searchCount : ℤ) - (a.searchCount : ℤ) ≤ 0)) a c
        = true := by
    intro a b c
    simp only [decide_eq_true_eq]
    omega
  set le : GridCacheEntry → GridCacheEntry → Bool :=
    fun a b => decide ((b.searchCount : ℤ) - (a.searchCount : ℤ) ≤ 0) with hle
  set sorted := jsSortBy le (old ++ [entry]) with hsorted
  have hperm : List.Perm sorted (old ++ [entry]) := jsSortBy_perm le _
  have hslen : sorted.length = 101 := by
    rw [hperm.length_eq]
    simp [hlen]
  have hdroplen : (sorted.drop 100).length = 1 := by
    simp [hslen]
  obtain ⟨z, hz⟩ := List.length_eq_one.1 hdroplen
  have hdecomp : sorted = sorted.take 100 ++ [z] := by
    rw [← hz, List.take_append_drop]
  have hentry_not_old : entry ∉ old := by
    intro hmem
    have := hcnt_old entry hmem
    omega
  have hcount_entry : sorted.count entry = 1 := by
    rw [hperm.count_eq, List.count_append, List.count_eq_zero.2 hentry_not_old]
    simp
  have hentry_not_top : entry ∉ sorted.take 100 := by
    intro hmem
    have hpair : sorted.Pairwise (le · · = true) :=
      jsSortBy_pairwise htot htrans _
    rw [hdecomp] at hpair
    have hlez : le entry z = true :=
      (List.pairwise_append.1 hpair).2.2 entry hmem z (by simp)
    have hzcnt : (z.searchCount : ℤ) ≤ 1 := by
      simp only [hle, decide_eq_true_eq, hcnt_new] at hlez
      omega
    have hzmem : z ∈ old ∨ z = entry := by
      have hzs : z ∈ sorted := by rw [hdecomp]; simp
      rcases List.mem_append.1 (hperm.mem_iff.1 hzs) with h | h
      · left; exact h
      · right; simpa using h
    rcases hzmem with h | h
    · have := hcnt_old z h
      omega
    · rw [hdecomp, List.count_append] at hcount_entry
      have h1 : 1 ≤ (sorted.take 100).count entry :=
        List.one_le_count_iff.2 hmem
      have h2 : 1 ≤ List.count entry [z] := by simp [h]
      omega
  have hz_entry : z = entry := by
    have hmem : entry ∈ sorted := hperm.mem_iff.2 (by simp)
    rw [hdecomp] at hmem
    rcases List.mem_append.1 hmem with h | h
    · exact absurd h hentry_not_top
    · exact (List.mem_singleton.1 h).symm
  rw [List.perm_iff_count]
  intro x
  have hc1 : sorted.count x = (sorted.take 100).count x + List.count x [z] := by
    conv_lhs => rw [hdecomp]
    rw [List.count_append]
  have hc2 : sorted.count x = old.count x + List.count x [entry] := by
    rw [hperm.count_eq, List.count_append]
  rw [hz_entry] at hc1
  omega

/-- C8 (amended): storing under a 101st distinct grid key evicts exactly one
entry, one with the lowest `searchCount`.  Since a fresh store starts at
`searchCount = 1`, when every resident entry has `searchCount ≥ 2` the
evicted entry is the newly written one itself: the prior 100 entries survive
unchanged and the new key is absent right after the store. -/
theorem grid_eviction (lat lng : ℚ) (places : List Place)
    (category query : Option String) (now : ℚ) (cache : GridCache)
    (hwf : ∀ p ∈ cache, p.2.gridKey = p.1)
    (hnd : (cache.map (·.1)).Nodup)
    (hlen : cache.length = 100)
    (hnew : getGridKey lat lng 2 category ∉ cache.map (·.1))
    (hcnt : ∀ p ∈ cache, 2 ≤ p.2.searchCount) :
    (saveGridCachedResults lat lng places category query now cache).length =
      100 ∧
    (∀ p ∈ cache,
      objGet (saveGridCachedResults lat lng places category query now cache)
        p.1 = some p.2) ∧
    objGet (saveGridCachedResults lat lng places category query now cache)
      (getGridKey lat lng 2 category) = none := by
  classical
  have hsave := saveGrid_evict lat lng places category query now cache hnew
    (by omega)
  have hset := objSet_append_of_not_mem cache (getGridKey lat lng 2 category)
    { gridKey := getGridKey lat lng 2 category, places := places,
      timestamp := now, searchCount := 1, category := category,
      query := query } hnew
  rw [hset] at hsave
  simp only [List.map_append, List.map_cons, List.map_nil] at hsave
  have hcore := evictCore (cache.map (·.2))
    { gridKey := getGridKey lat lng 2 category, places := places,
      timestamp := now, searchCount := 1, category := category,
      query := query }
    (fun v hv => by
      obtain ⟨p, hp, hpv⟩ := List.mem_map.1 hv
      rw [← hpv]
      exact hcnt p hp)
    rfl
    (by simp [hlen])
  have hkeys : List.Perm
      ((saveGridCachedResults lat lng places category query now cache).map
        (·.1)) (cache.map (·.1)) := by
    rw [hsave, List.map_map]
    have h1 := hcore.map (·.gridKey)
    have h2 : (cache.map (·.2)).map (·.gridKey) = cache.map (·.1) := by
      rw [List.map_map]
      exact List.map_congr_left fun p hp => hwf p hp
    rw [h2] at h1
    exact h1
  refine ⟨?_, ?_, ?_⟩
  · have := hkeys.length_eq
    simpa [hlen] using this
  · intro p hp
    have hmem_val : p.2 ∈ cache.map (·.2) := List.mem_map_of_mem (·.2) hp
    have hmem_top : p.2 ∈ _ := hcore.mem_iff.2 hmem_val
    have hmem_res : (p.2.gridKey, p.2) ∈
        saveGridCachedResults lat lng places category query now cache := by
      rw [hsave]
      exact List.mem_map_of_mem (fun e => (e.gridKey, e)) hmem_top
    have hnd_res : ((saveGridCachedResults lat lng places category query now
        cache).map (·.1)).Nodup := hkeys.nodup_iff.2 hnd
    have hres := objGet_of_mem_nodup _ p.2.gridKey p.2 hnd_res hmem_res
    rwa [hwf p hp] at hres
  · apply objGet_eq_none_of_not_mem
    intro hmem
    exact hnew (hkeys.mem_iff.1 hmem)

/-- Witness for C8 (amended): the concrete 100-entry cache satisfies the
hypotheses; the store keeps exactly those 100 entries, every resident entry
survives unchanged, and the new key is absent. -/
theorem grid_eviction_witness :
    (saveGridCachedResults 200 0 [wPlace] none none 0 fullGrid100).length =
      100 ∧
    (∀ p ∈ fullGrid100,
      objGet (saveGridCachedResults 200 0 [wPlace] none none 0 fullGrid100)
        p.1 = some p.2) := by
  have h := grid_eviction 200 0 [wPlace] none none 0 fullGrid100
    (by decide) (by decide) (by decide) (by decide) (by decide)
  exact ⟨h.1, h.2.1⟩

/-- Counterexample for C8 as stated: on a full cache of entries that were
each hit at least once, the evicted entry is the newly written one, so the
claim that the newly written entry is always among the preserved 100 fails:
its key is absent right after the store. -/
theorem grid_eviction_counterexample :
    objGet (saveGridCachedResults 200 0 [wPlace] none none 0 fullGrid100)
      (getGridKey 200 0 2 none) = none := by
  decide

/-! ### C4: the free-tier gate and the grid cache -/

theorem getUsageStats_currentMonth (stored : Option UsageStats)
    (curMonth : String) : (getUsageStats stored curMonth).currentMonth =
      curMonth := by
  cases stored with
  | none => rfl
  | some s =>
    by_cases h : s.currentMonth = curMonth
    · simp [getUsageStats, h, createNewMonthStats]
    · simp [getUsageStats, h, createNewMonthStats]

/-- C4 (amended): `hasExceededFreeTier` is true exactly when the current
month's effective search count has reached the fixed limit of 10; but the
gate is checked before the grid-cache probe, so when the quota is exhausted
even a search that the cache could serve is blocked (state untouched, no
places shown), and a search served from the cache is still recorded by
`trackSearch`, raising the month's count by one like any other search. -/
theorem quota_gate :
    (∀ (stored : Option UsageStats) (curMonth : String),
      hasExceededFreeTier stored curMonth = true ↔
        10 ≤ (match stored with
          | some s => if s.currentMonth = curMonth then s.searchCount else 0
          | none => 0)) ∧
    (∀ (w : AppWorld) (lat lng : ℚ) (q : Option String) (cats : List String)
       (api : RecResult),
      hasExceededFreeTier w.usage w.month = true →
      fetchVibe w lat lng q false cats api =
        { world := w, blocked := true, gridCacheHit := false, shown := none }) ∧
    (∀ (w : AppWorld) (lat lng : ℚ) (q : Option String) (cats : List String)
       (api : RecResult),
      hasExceededFreeTier w.usage w.month = false →
      (fetchVibe w lat lng q false cats api).world.usage =
        some (trackSearch w.usage w.month) ∧
      (getUsageStats (fetchVibe w lat lng q false cats api).world.usage
          w.month).searchCount =
        (getUsageStats w.usage w.month).searchCount + 1) := by
  refine ⟨?_, ?_, ?_⟩
  · intro stored curMonth
    cases stored with
    | none => simp [hasExceededFreeTier, getUsageStats, createNewMonthStats,
        searchesPerMonth]
    | some s =>
      by_cases h : s.currentMonth = curMonth
      · simp [hasExceededFreeTier, getUsageStats, h, searchesPerMonth]
      · simp [hasExceededFreeTier, getUsageStats, h, createNewMonthStats,
          searchesPerMonth]
  · intro w lat lng q cats api h
    simp [fetchVibe, h]
  · intro w lat lng q cats api h
    have h1 : (fetchVibe w lat lng q false cats api).world.usage =
        some (trackSearch w.usage w.month) := by
      simp [fetchVibe, h]
    refine ⟨h1, ?_⟩
    rw [h1]
    have hm : (trackSearch w.usage w.month).currentMonth = w.month := by
      simp [trackSearch, getUsageStats_currentMonth]
    simp only [getUsageStats]
    rw [if_neg (by simp [hm])]
    simp only [trackSearch]
    cases w.usage with
    | none => simp [getUsageStats]
    | some s =>
      by_cases hsm : s.currentMonth = w.month <;> simp [getUsageStats, hsm]

/-- Witness for C4 (amended): at nine used searches the gate is open, a
cache-served search still increments the monthly count to ten. -/
theorem quota_gate_witness :
    hasExceededFreeTier (some ⟨"2026-10", 9, 3, 25⟩) "2026-10" = false ∧
    (fetchVibe
        { quotaWorld with usage := some ⟨"2026-10", 9, 3, 25⟩ } 1 2 none false
        [] ⟨"api", []⟩).world.usage = some ⟨"2026-10", 10, 3, 26⟩ := by
  constructor
  · decide
  · have h := (quota_gate.2.2
      { quotaWorld with usage := some ⟨"2026-10", 9, 3, 25⟩ } 1 2 none []
      ⟨"api", []⟩ (by decide)).1
    rw [h]
    decide

/-- Counterexample for C4 as stated: a state with the quota consumed and a
fresh nonempty cache entry for the searched cell — the cache would serve the
search, yet `fetchVibe` returns blocked without touching the cache, because
the gate runs before the lookup. -/
theorem quota_gate_counterexample :
    (getGridCachedResults 1 2 none none quotaWorld.now quotaWorld.grid).1 =
      some [wPlace] ∧
    fetchVibe quotaWorld 1 2 none false [] ⟨"api", []⟩ =
      { world := quotaWorld, blocked := true, gridCacheHit := false,
        shown := none } := by
  constructor
  · decide
  · decide

/-! ### Structure of the Google retry loop -/

theorem googleLoop_throw_last (log10 : ℚ → ℚ)
    (dist : Coordinates → Coordinates → ℚ) (coords : Coordinates)
    (excl : List String) (cats : Option (List String))
    (r : GoogleAttemptResponse) (rest : List GoogleAttemptResponse)
    (rad : ℚ) (best : Option RecResult)
    (hthrow : r.throws = true) (hrest : rest.isEmpty = true) :
    googleLoop log10 dist coords excl cats (r :: rest) rad best =
      googleFallbackResult best := by
  simp [googleLoop, hthrow, hrest]

theorem googleLoop_throw_cont (log10 : ℚ → ℚ)
    (dist : Coordinates → Coordinates → ℚ) (coords : Coordinates)
    (excl : List String) (cats : Option (List String))
    (r : GoogleAttemptResponse) (rest : List GoogleAttemptResponse)
    (rad : ℚ) (best : Option RecResult)
    (hthrow : r.throws = true) (hrest : rest.isEmpty = false) :
    googleLoop log10 dist coords excl cats (r :: rest) rad best =
      googleLoop log10 dist coords excl cats rest (rad * 2) best := by
  simp [googleLoop, hthrow, hrest]

theorem googleLoop_cons_eq (log10 : ℚ → ℚ)
    (dist : Coordinates → Coordinates → ℚ) (coords : Coordinates)
    (excl : List String) (cats : Option (List String))
    (r : GoogleAttemptResponse) (rest : List GoogleAttemptResponse)
    (rad : ℚ) (best : Option RecResult) (hthrow : r.throws = false) :
    googleLoop log10 dist coords excl cats (r :: rest) rad best =
      (let F := googleAttemptFinal log10 dist coords excl cats r rad
       let city := googleAttemptCity r
       let best1 : Option RecResult := match best with
         | some b =>
           if b.places.length < F.length then some ⟨city, F⟩ else some b
         | none => some ⟨city, F⟩
       if 8 ≤ F.length then best1.getD ⟨city, F⟩
       else if !rest.isEmpty then
         googleLoop log10 dist coords excl cats rest (rad * 2) best1
       else best1.getD ⟨city, F⟩) := by
  simp [googleLoop, hthrow]

theorem googleFallbackResult_places (best : Option RecResult) :
    (googleFallbackResult best).places = [] ∨
    (∃ b, best = some b ∧ (googleFallbackResult best).places = b.places) := by
  cases best with
  | none => left; simp [googleFallbackResult]
  | some b =>
    by_cases h : b.places.isEmpty
    · left; simp [googleFallbackResult, h]
    · right; exact ⟨b, rfl, by simp [googleFallbackResult, h]⟩

/-- Every result the Google retry loop can return is the empty list, the
incoming best result, or the final list of one of the processed attempts at
radius `rad * 2 ^ k` for some `k` below the number of remaining attempts. -/
theorem googleLoop_places_cases (log10 : ℚ → ℚ)
    (dist : Coordinates → Coordinates → ℚ) (coords : Coordinates)
    (excl : List String) (cats : Option (List String)) :
    ∀ (rs : List GoogleAttemptResponse) (rad : ℚ) (best : Option RecResult),
      (googleLoop log10 dist coords excl cats rs rad best).places = [] ∨
      (∃ b, best = some b ∧
        (googleLoop log10 dist coords excl cats rs rad best).places =
          b.places) ∨
      (∃ r ∈ rs, ∃ k : ℕ, k < rs.length ∧
        (googleLoop log10 dist coords excl cats rs rad best).places =
          googleAttemptFinal log10 dist coords excl cats r (rad * 2 ^ k)) := by
  intro rs
  induction rs with
  | nil =>
    intro rad best
    rcases googleFallbackResult_places best with h | h
    · left; simpa [googleLoop] using h
    · right; left
      obtain ⟨b, hb, h2⟩ := h
      exact ⟨b, hb, by simpa [googleLoop] using h2⟩
  | cons r rest ih =>
    intro rad best
    by_cases hthrow : r.throws = true
    · by_cases hrest : rest.isEmpty
      · rw [googleLoop_throw_last log10 dist coords excl cats r rest rad best
          hthrow hrest]
        rcases googleFallbackResult_places best with h | h
        · left; exact h
        · right; left; exact h
      · rw [googleLoop_throw_cont log10 dist coords excl cats r rest rad best
          hthrow (by simpa using hrest)]
        rcases ih (rad * 2) best with h | h | h
        · left; exact h
        · right; left; exact h
        · obtain ⟨r1, hr1, k, hk, heq⟩ := h
          right; right
          refine ⟨r1, List.mem_cons_of_mem r hr1, k + 1, by simp; omega, ?_⟩
          rw [heq]
          congr 1
          ring
    · have hthrow2 : r.throws = false := by simpa using hthrow
      rw [googleLoop_cons_eq log10 dist coords excl cats r rest rad best
        hthrow2]
      set F := googleAttemptFinal log10 dist coords excl cats r rad with hF
      have hFr : F = googleAttemptFinal log10 dist coords excl cats r
          (rad * 2 ^ 0) := by
        rw [hF, pow_zero, mul_one]
      set city := googleAttemptCity r with hcity
      have hmemr : r ∈ r :: rest := by simp
      have hklt : 0 < (r :: rest).length := by simp
      cases best with
      | none =>
        simp only []
        by_cases h8 : 8 ≤ F.length
        · rw [if_pos h8]
          right; right
          exact ⟨r, hmemr, 0, hklt, by simpa using hFr⟩
        · rw [if_neg h8]
          by_cases hrest : rest.isEmpty
          · rw [if_neg (by simp [hrest])]
            right; right
            exact ⟨r, hmemr, 0, hklt, by simpa using hFr⟩
          · rw [if_pos (by simp [hrest])]
            rcases ih (rad * 2) (some ⟨city, F⟩) with h | h | h
            · left; exact h
            · obtain ⟨b, hb, h2⟩ := h
              right; right
              refine ⟨r, hmemr, 0, hklt, ?_⟩
              rw [h2, (Option.some_inj.1 hb.symm)]
              simpa using hFr.symm ▸ rfl
            · obtain ⟨r1, hr1, k, hk, heq⟩ := h
              right; right
              refine ⟨r1, List.mem_cons_of_mem r hr1, k + 1, by simp; omega, ?_⟩
              rw [heq]
              congr 1
              ring
      | some b =>
        simp only []
        by_cases hlt : b.places.length < F.length
        · rw [if_pos hlt]
          by_cases h8 : 8 ≤ F.length
          · rw [if_pos h8]
            right; right
            exact ⟨r, hmemr, 0, hklt, by simpa using hFr⟩
          · rw [if_neg h8]
            by_cases hrest : rest.isEmpty
            · rw [if_neg (by simp [hrest])]
              right; right
              exact ⟨r, hmemr, 0, hklt, by simpa using hFr⟩
            · rw [if_pos (by simp [hrest])]
              rcases ih (rad * 2) (some ⟨city, F⟩) with h | h | h
              · left; exact h
              · obtain ⟨b1, hb1, h2⟩ := h
                right; right
                refine ⟨r, hmemr, 0, hklt, ?_⟩
                rw [h2, (Option.some_inj.1 hb1.symm)]
                simpa using hFr.symm ▸ rfl
              · obtain ⟨r1, hr1, k, hk, heq⟩ := h
                right; right
                refine ⟨r1, List.mem_cons_of_mem r hr1, k + 1,
                  by simp; omega, ?_⟩
                rw [heq]
                congr 1
                ring
        · rw [if_neg hlt]
          by_cases h8 : 8 ≤ F.length
          · rw [if_pos h8]
            right; left
            exact ⟨b, rfl, by simp⟩
          · rw [if_neg h8]
            by_cases hrest : rest.isEmpty
            · rw [if_neg (by simp [hrest])]
              right; left
              exact ⟨b, rfl, by simp⟩
            · rw [if_pos (by simp [hrest])]
              rcases ih (rad * 2) (some b) with h | h | h
              · left; exact h
              · obtain ⟨b1, hb1, h2⟩ := h
                right; left
                exact ⟨b, rfl, by rw [h2, Option.some_inj.1 hb1.symm]⟩
              · obtain ⟨r1, hr1, k, hk, heq⟩ := h
                right; right
                refine ⟨r1, List.mem_cons_of_mem r hr1, k + 1,
                  by simp; omega, ?_⟩
                rw [heq]
                congr 1
                ring

/-! ### Per-attempt facts on the Google path -/

/-- Invariants of the build phase: every built place avoids the `seen`
names, is chain-free, respects the distance ceiling when it has a resolved
coordinate, and the normalized names of the built list are distinct. -/
theorem googleBuildPlaces_spec (dist : Coordinates → Coordinates → ℚ)
    (coords : Coordinates) (excl : List String) (maxD : ℚ) :
    ∀ (pairs : List (PlaceDiscovery × Option PlaceDetails)) (seen : List String),
      (∀ p ∈ googleBuildPlaces dist coords excl maxD seen pairs,
        normName p.name ∉ seen ∧ isChainRestaurant p.name = false ∧
        ∀ c, p.coord = some c → dist coords c ≤ maxD) ∧
      ((googleBuildPlaces dist coords excl maxD seen pairs).map
        (fun p => normName p.name)).Nodup := by
  intro pairs
  induction pairs with
  | nil => intro seen; simp [googleBuildPlaces]
  | cons pr rest ih =>
    intro seen
    obtain ⟨discovery, details?⟩ := pr
    cases details? with
    | none => simpa [googleBuildPlaces] using ih seen
    | some details =>
      simp only [googleBuildPlaces]
      by_cases hclosed : (details.business_status = some "CLOSED_PERMANENTLY" ||
          details.business_status = some "CLOSED_TEMPORARILY") = true
      · rw [if_pos hclosed]; exact ih seen
      · rw [if_neg hclosed]
        by_cases hseen : seen.contains (normName details.name) = true
        · rw [if_pos hseen]; exact ih seen
        · rw [if_neg hseen]
          by_cases hchain : isChainRestaurant details.name = true
          · rw [if_pos hchain]; exact ih seen
          · rw [if_neg hchain]
            by_cases hexcl : (excl.any
                (fun e => normName e = normName details.name)) = true
            · rw [if_pos hexcl]; exact ih seen
            · rw [if_neg hexcl]
              by_cases hfar : (match details.location with
                  | some loc => decide (maxD < dist coords loc)
                  | none => false) = true
              · rw [if_pos hfar]; exact ih seen
              · rw [if_neg hfar]
                have hdist : ∀ c, details.location = some c →
                    dist coords c ≤ maxD := by
                  intro c hc
                  rw [hc] at hfar
                  simp only [decide_eq_true_eq] at hfar
                  exact le_of_not_lt hfar
                obtain ⟨ih1, ih2⟩ := ih (normName details.name :: seen)
                have hseen2 : normName details.name ∉ seen := by
                  intro hmem
                  exact hseen (List.contains_iff_exists_mem_beq.2
                    ⟨_, hmem, by simp⟩)
                constructor
                · intro p hp
                  rcases List.mem_cons.1 hp with h | h
                  · subst h
                    exact ⟨hseen2, by simpa using hchain, hdist⟩
                  · obtain ⟨hs, hrest⟩ := ih1 p h
                    exact ⟨fun hmem => hs (by simp [hmem]), hrest⟩
                · rw [List.map_cons]
                  refine List.nodup_cons.2 ⟨?_, ih2⟩
                  intro hmem
                  obtain ⟨p, hp, hpn⟩ := List.mem_map.1 hmem
                  exact (ih1 p hp).1 (by simp [hpn])

/-- Facts about one attempt's final list: chain-free, distance-bounded by
`currentRadius * 1.5`, and pairwise-distinct normalized names. -/
theorem googleAttemptFinal_spec (log10 : ℚ → ℚ)
    (dist : Coordinates → Coordinates → ℚ) (coords : Coordinates)
    (excl : List String) (cats : Option (List String))
    (r : GoogleAttemptResponse) (R : ℚ) :
    (∀ p ∈ googleAttemptFinal log10 dist coords excl cats r R,
      isChainRestaurant p.name = false ∧
      ∀ c, p.coord = some c → dist coords c ≤ R * (3 / 2)) ∧
    ((googleAttemptFinal log10 dist coords excl cats r R).map
      (fun p => normName p.name)).Nodup := by
  have hspec := googleBuildPlaces_spec dist coords excl (R * (3 / 2))
    ((googleDiscoveries log10 r.nearby).zip
      (googleFetchDetails r (googleDiscoveries log10 r.nearby))) []
  simp only [googleAttemptFinal]
  set places := googleBuildPlaces dist coords excl (R * (3 / 2)) []
    ((googleDiscoveries log10 r.nearby).zip
      (googleFetchDetails r (googleDiscoveries log10 r.nearby))) with hplaces
  set ratingFiltered := googleRatingFilter (!excl.isEmpty) places with hrf
  set filteredPlaces := if googleHasCats cats then
      ratingFiltered.filter fun p => (cats.getD []).contains p.category.str
    else ratingFiltered with hfp
  set sorted := jsSortBy (fun a b => decide (googleCmp log10 cats a b ≤ 0))
    filteredPlaces with hsorted
  have hsub1 : List.Sublist ratingFiltered places := by
    rw [hrf]
    exact List.filter_sublist places
  have hsub2 : List.Sublist filteredPlaces ratingFiltered := by
    rw [hfp]
    by_cases h : googleHasCats cats = true
    · rw [if_pos h]
      exact List.filter_sublist ratingFiltered
    · rw [if_neg h]
  have hperm : List.Perm sorted filteredPlaces := jsSortBy_perm _ _
  constructor
  · intro p hp
    have h1 : p ∈ sorted := List.mem_of_mem_take hp
    have h2 : p ∈ filteredPlaces := hperm.mem_iff.1 h1
    have h3 : p ∈ places := hsub1.mem (hsub2.mem h2)
    obtain ⟨hs, hchain, hdist⟩ := hspec.1 p h3
    exact ⟨hchain, hdist⟩
  · have hnd0 : (places.map fun p => normName p.name).Nodup := hspec.2
    have hnd1 : (ratingFiltered.map fun p => normName p.name).Nodup :=
      List.Nodup.sublist (hsub1.map _) hnd0
    have hnd2 : (filteredPlaces.map fun p => normName p.name).Nodup :=
      List.Nodup.sublist (hsub2.map _) hnd1
    have hnd3 : (sorted.map fun p => normName p.name).Nodup :=
      ((hperm.map _).nodup_iff).2 hnd2
    exact List.Nodup.sublist ((List.take_sublist 8 sorted).map _) hnd3

/-! ### C1: the dedup invariant -/

/-- C1 (amended): every result of the Google path (`getRecommendations`) has
pairwise-distinct normalized (lowercased, trimmed) place names, for every
input and every sequence of provider responses.  The Foursquare path offers
no such guarantee: it deduplicates names only when merging the OSM fallback,
so duplicate names inside one Foursquare response survive to the result (see
the counterexample). -/
theorem dedup_invariant (log10 : ℚ → ℚ)
    (dist : Coordinates → Coordinates → ℚ) (coords : Coordinates)
    (searchQuery : Option String) (radiusKm : ℚ) (hotAndNew : Bool)
    (excl : List String) (cats : Option (List String))
    (oracle : ℕ → GoogleAttemptResponse) :
    ((getRecommendations log10 dist coords searchQuery radiusKm hotAndNew
        excl cats oracle).places.map (fun p => normName p.name)).Nodup := by
  simp only [getRecommendations]
  rcases googleLoop_places_cases log10 dist coords excl cats
    ((List.range 5).map oracle)
    (if !excl.isEmpty then radiusKm * (6 / 5) else radiusKm) none with
    h | h | h
  · rw [h]; simp
  · obtain ⟨b, hb, h2⟩ := h
    exact absurd hb (by simp)
  · obtain ⟨r1, hr1, k, hk, heq⟩ := h
    rw [heq]
    exact (googleAttemptFinal_spec log10 dist coords excl cats r1 _).2

/-- Counterexample for C1 as stated: a Foursquare response containing two
places both named `Twin Cafe` (all candidates tie in popularity, so the
result is independent of the `log10` stand-in) yields a returned result with
a duplicated normalized name. -/
theorem dedup_invariant_counterexample :
    ¬ ((getRecommendationsWithFoursquare log10Model distModel ⟨0, 0⟩ none
        (16 / 5) false [] [] (some "Testville") dupFsqOracle
        googleOracleThrows).places.map (fun p => normName p.name)).Nodup := by
  decide

/-! ### C5: chain exclusion -/

/-- Foursquare-proper attempt output never contains a chain name. -/
theorem fsqAttemptPlaces_no_chain (log10 : ℚ → ℚ) (excl : List String)
    (fsqPlaces : List FsqPlace) (p : Place)
    (hp : p ∈ fsqAttemptPlaces log10 excl fsqPlaces) :
    isChainRestaurant p.name = false := by
  simp only [fsqAttemptPlaces] at hp
  obtain ⟨q, hq, hconv⟩ := List.mem_filterMap.1 hp
  have hq2 : q ∈ fsqChainExcludeFilter excl
      (fsqSortPlaces log10 (fsqHospitalityFilter fsqPlaces)) :=
    List.mem_of_mem_take hq
  have hpred := List.of_mem_filter hq2
  have hname : p.name = q.name := by
    simp only [fsqToPlace] at hconv
    by_cases hcat : mapFoursquareCategory q.categories = PlaceCategory.UNKNOWN
    · rw [if_pos hcat] at hconv
      simp at hconv
    · rw [if_neg hcat] at hconv
      cases hconv
      rfl
  rw [hname]
  by_cases hchain : isChainRestaurant q.name = true
  · rw [if_pos hchain] at hpred
    simp at hpred
  · simpa using hchain

/-- C5 (amended): no chain-blocklist name ever appears in a Google-path
result, nor among the converted Foursquare hits of any attempt; the OSM
fallback merge, however, performs no chain check, so a chain-named OSM
candidate can reach a returned result (see the counterexample). -/
theorem chain_exclusion :
    (∀ (log10 : ℚ → ℚ) (dist : Coordinates → Coordinates → ℚ)
       (coords : Coordinates) (searchQuery : Option String) (radiusKm : ℚ)
       (hotAndNew : Bool) (excl : List String) (cats : Option (List String))
       (oracle : ℕ → GoogleAttemptResponse),
      ∀ p ∈ (getRecommendations log10 dist coords searchQuery radiusKm
        hotAndNew excl cats oracle).places,
      isChainRestaurant p.name = false) ∧
    (∀ (log10 : ℚ → ℚ) (excl : List String) (fsqPlaces : List FsqPlace),
      ∀ p ∈ fsqAttemptPlaces log10 excl fsqPlaces,
      isChainRestaurant p.name = false) := by
  constructor
  · intro log10 dist coords searchQuery radiusKm hotAndNew excl cats oracle
      p hp
    simp only [getRecommendations] at hp
    rcases googleLoop_places_cases log10 dist coords excl cats
      ((List.range 5).map oracle)
      (if !excl.isEmpty then radiusKm * (6 / 5) else radiusKm) none with
      h | h | h
    · rw [h] at hp; simp at hp
    · obtain ⟨b, hb, h2⟩ := h
      exact absurd hb (by simp)
    · obtain ⟨r1, hr1, k, hk, heq⟩ := h
      rw [heq] at hp
      exact ((googleAttemptFinal_spec log10 dist coords excl cats r1 _).1 p
        hp).1
  · exact fsqAttemptPlaces_no_chain

/-- Witness for C5 (amended): concrete runs produce the unrated
`Quiet Corner` (Google path) and `Cafe Alpha` (Foursquare attempt), and the
theorem certifies both chain-free. -/
theorem chain_exclusion_witness :
    isChainRestaurant quietPlace.name = false ∧
    isChainRestaurant
      (((fsqToPlace (mkCafe "f3" "Cafe Alpha" none)).getD quietPlace).name) =
      false := by
  constructor
  · exact chain_exclusion.1 log10Model distModel ⟨0, 0⟩ none 4 false [] none
      unratedOracle quietPlace (by decide)
  · exact chain_exclusion.2 log10Model [] dupFsqPlaces
      ((fsqToPlace (mkCafe "f3" "Cafe Alpha" none)).getD quietPlace)
      (by decide)

/-- Counterexample for C5 as stated: via the OSM fallback merge a candidate
named `Starbucks Coffee` — a chain-blocklist hit — appears in a returned
result of the Foursquare path. -/
theorem chain_exclusion_counterexample :
    osmToPlace osmStarbucks ∈
      (getRecommendationsWithFoursquare log10Model distModel ⟨0, 0⟩ none
        (16 / 5) false [] ["EXPLORE"] (some "Testville") osmChainOracle
        googleOracleThrows).places ∧
    isChainRestaurant (osmToPlace osmStarbucks).name = true := by
  constructor
  · decide
  · decide

/-! ### C3: the distance invariant -/

/-- The Haversine distance from the origin to the north pole, evaluated in
closed form. -/
theorem haversine_pole : haversineKm ⟨0, 0⟩ ⟨90, 0⟩ = 6371 * (Real.pi / 2) := by
  simp only [haversineKm]
  push_cast
  have h1 : ((90 : ℝ) - 0) * Real.pi / 180 / 2 = Real.pi / 4 := by ring
  have h2 : ((0 : ℝ) - 0) * Real.pi / 180 / 2 = 0 := by ring
  have h3 : (0 : ℝ) * Real.pi / 180 = 0 := by ring
  have h4 : (90 : ℝ) * Real.pi / 180 = Real.pi / 2 := by ring
  rw [h1, h2, h3, h4]
  rw [Real.sin_pi_div_four, Real.sin_zero, Real.cos_zero, Real.cos_pi_div_two]
  have hs : Real.sqrt 2 / 2 * (Real.sqrt 2 / 2) + 1 * 0 * 0 * 0 = 1 / 2 := by
    have h22 : Real.sqrt 2 * Real.sqrt 2 = 2 := Real.mul_self_sqrt (by norm_num)
    nlinarith [h22]
  rw [hs]
  have h12 : (1 : ℝ) - 1 / 2 = 1 / 2 := by norm_num
  rw [h12]
  have hpos : 0 < Real.sqrt (1 / 2) := Real.sqrt_pos.2 (by norm_num)
  have hat : atan2 (Real.sqrt (1 / 2)) (Real.sqrt (1 / 2)) = Real.pi / 4 := by
    rw [atan2, if_pos hpos, div_self (ne_of_gt hpos), Real.arctan_one]
  rw [hat]
  ring

/-- C3 (amended): the Google path enforces its distance ceiling per attempt
at `currentRadius * 1.5`, where `currentRadius` starts from the (possibly
refresh-widened) caller radius and doubles on each of up to five attempts —
so every returned place with a resolved coordinate lies within
`adjustedRadius * 2 ^ 4 * 1.5` of the center (for the distance function the
engine is run with).  The Foursquare path applies no distance filter at all
(see the counterexample). -/
theorem distance_invariant (log10 : ℚ → ℚ)
    (dist : Coordinates → Coordinates → ℚ) (coords : Coordinates)
    (searchQuery : Option String) (radiusKm : ℚ) (hotAndNew : Bool)
    (excl : List String) (cats : Option (List String))
    (oracle : ℕ → GoogleAttemptResponse) (hrad : 0 ≤ radiusKm) :
    ∀ p ∈ (getRecommendations log10 dist coords searchQuery radiusKm
      hotAndNew excl cats oracle).places,
    ∀ c, p.coord = some c →
      dist coords c ≤
        (if !excl.isEmpty then radiusKm * (6 / 5) else radiusKm) * 2 ^ 4 *
          (3 / 2) := by
  intro p hp c hc
  set rad1 : ℚ := if !excl.isEmpty then radiusKm * (6 / 5) else radiusKm
    with hrad1
  have hrad1nn : 0 ≤ rad1 := by
    rw [hrad1]
    by_cases h : excl.isEmpty <;> simp [h] <;> nlinarith
  simp only [getRecommendations, ← hrad1] at hp
  rcases googleLoop_places_cases log10 dist coords excl cats
    ((List.range 5).map oracle) rad1 none with h | h | h
  · rw [h] at hp; simp at hp
  · obtain ⟨b, hb, h2⟩ := h
    exact absurd hb (by simp)
  · obtain ⟨r1, hr1, k, hk, heq⟩ := h
    rw [heq] at hp
    have hd := ((googleAttemptFinal_spec log10 dist coords excl cats r1
      (rad1 * 2 ^ k)).1 p hp).2 c hc
    have hklt : k < 5 := by simpa using hk
    have hpow : (2 : ℚ) ^ k ≤ 2 ^ 4 :=
      pow_le_pow_right₀ (by norm_num) (by omega)
    nlinarith [hd, hpow, hrad1nn]

/-- Witness for C3 (amended): on a nonnegative-radius run with the taxicab
stand-in distance, the located `Harbor View` appears in the result and its
distance obeys the amended bound. -/
theorem distance_invariant_witness :
    harborPlace ∈ (getRecommendations log10Model distModel ⟨0, 0⟩ none 4
      false [] none locatedOracle).places ∧
    distModel ⟨0, 0⟩ ⟨0, 1⟩ ≤
      (if !([] : List String).isEmpty then (4 : ℚ) * (6 / 5) else 4) * 2 ^ 4 *
        (3 / 2) := by
  refine ⟨by decide, ?_⟩
  exact distance_invariant log10Model distModel ⟨0, 0⟩ none 4 false [] none
    locatedOracle (by norm_num) harborPlace (by decide) ⟨0, 1⟩ (by decide)

/-- Counterexample for C3 as stated: the Foursquare path returns the north
pole cafe to a search centered at the origin with a 3.2 km radius, yet its
Haversine distance (6371 π / 2 km) vastly exceeds `radiusKm * 1.5 = 4.8`. -/
theorem distance_invariant_counterexample :
    polarPlace ∈ (getRecommendationsWithFoursquare log10Model distModel
      ⟨0, 0⟩ none (16 / 5) false [] [] (some "Testville") farFsqOracle
      googleOracleThrows).places ∧
    polarPlace.coord = some ⟨90, 0⟩ ∧
    ¬ (haversineKm ⟨0, 0⟩ ⟨90, 0⟩ ≤ ((16 : ℝ) / 5) * (3 / 2)) := by
  refine ⟨by decide, by decide, ?_⟩
  rw [haversine_pole]
  push_neg
  have hpi := Real.pi_gt_three
  nlinarith

/-! ### C2: retry termination and best-effort results -/

/-- The Google loop never returns fewer places than the best result it was
handed. -/
theorem googleLoop_ge_best (log10 : ℚ → ℚ)
    (dist : Coordinates → Coordinates → ℚ) (coords : Coordinates)
    (excl : List String) (cats : Option (List String)) :
    ∀ (rs : List GoogleAttemptResponse) (rad : ℚ) (b : RecResult),
      b.places.length ≤
        (googleLoop log10 dist coords excl cats rs rad (some b)).places.length := by
  intro rs
  induction rs with
  | nil =>
    intro rad b
    simp only [googleLoop, googleFallbackResult]
    by_cases h : b.places.isEmpty
    · simp [h, List.isEmpty_iff.1 h]
    · simp [h]
  | cons r rest ih =>
    intro rad b
    by_cases hthrow : r.throws = true
    · by_cases hrest : rest.isEmpty
      · rw [googleLoop_throw_last log10 dist coords excl cats r rest rad
          (some b) hthrow hrest]
        simp only [googleFallbackResult]
        by_cases h : b.places.isEmpty
        · simp [h, List.isEmpty_iff.1 h]
        · simp [h]
      · rw [googleLoop_throw_cont log10 dist coords excl cats r rest rad
          (some b) hthrow (by simpa using hrest)]
        exact ih (rad * 2) b
    · have hthrow2 : r.throws = false := by simpa using hthrow
      rw [googleLoop_cons_eq log10 dist coords excl cats r rest rad (some b)
        hthrow2]
      set F := googleAttemptFinal log10 dist coords excl cats r rad with hF
      set city := googleAttemptCity r with hcity
      simp only []
      by_cases hlt : b.places.length < F.length
      · rw [if_pos hlt]
        by_cases h8 : 8 ≤ F.length
        · rw [if_pos h8]
          simp
          omega
        · rw [if_neg h8]
          by_cases hrest : rest.isEmpty
          · rw [if_neg (by simp [hrest])]
            simp
            omega
          · rw [if_pos (by simp [hrest])]
            have := ih (rad * 2) ⟨city, F⟩
            simp only at this
            omega
      · rw [if_neg hlt]
        by_cases h8 : 8 ≤ F.length
        · rw [if_pos h8]
          simp
        · rw [if_neg h8]
          by_cases hrest : rest.isEmpty
          · rw [if_neg (by simp [hrest])]
            simp
          · rw [if_pos (by simp [hrest])]
            exact ih (rad * 2) b

/-- A Google run returns at least as many places as its first attempt
observes, whenever that attempt does not throw. -/
theorem googleRun_ge_first_attempt (log10 : ℚ → ℚ)
    (dist : Coordinates → Coordinates → ℚ) (coords : Coordinates)
    (searchQuery : Option String) (radiusKm : ℚ) (hotAndNew : Bool)
    (excl : List String) (cats : Option (List String))
    (oracle : ℕ → GoogleAttemptResponse) (hthrow : (oracle 0).throws = false) :
    (googleAttemptFinal log10 dist coords excl cats (oracle 0)
        (if !excl.isEmpty then radiusKm * (6 / 5) else radiusKm)).length ≤
      (getRecommendations log10 dist coords searchQuery radiusKm hotAndNew
        excl cats oracle).places.length := by
  simp only [getRecommendations]
  have hrange : (List.range 5).map oracle =
      oracle 0 :: [oracle 1, oracle 2, oracle 3, oracle 4] := by
    rfl
  rw [hrange]
  set rad1 : ℚ := if !excl.isEmpty then radiusKm * (6 / 5) else radiusKm
  rw [googleLoop_cons_eq log10 dist coords excl cats (oracle 0) _ rad1 none
    hthrow]
  set F := googleAttemptFinal log10 dist coords excl cats (oracle 0) rad1
    with hF
  set city := googleAttemptCity (oracle 0) with hcity
  simp only []
  by_cases h8 : 8 ≤ F.length
  · rw [if_pos h8]
    simp
  · rw [if_neg h8]
    rw [if_pos (by simp)]
    have := googleLoop_ge_best log10 dist coords excl cats
      [oracle 1, oracle 2, oracle 3, oracle 4] (rad1 * 2) ⟨city, F⟩
    simpa using this

/-- The Google loop under all-throwing responses returns the fallback. -/
theorem googleLoop_all_throws (log10 : ℚ → ℚ)
    (dist : Coordinates → Coordinates → ℚ) (coords : Coordinates)
    (excl : List String) (cats : Option (List String)) :
    ∀ (rs : List GoogleAttemptResponse) (rad : ℚ) (best : Option RecResult),
      (∀ r ∈ rs, r.throws = true) →
      googleLoop log10 dist coords excl cats rs rad best =
        googleFallbackResult best := by
  intro rs
  induction rs with
  | nil => intro rad best h; rfl
  | cons r rest ih =>
    intro rad best h
    have hr : r.throws = true := h r (by simp)
    by_cases hrest : rest.isEmpty
    · exact googleLoop_throw_last log10 dist coords excl cats r rest rad best
        hr hrest
    · rw [googleLoop_throw_cont log10 dist coords excl cats r rest rad best
        hr (by simpa using hrest)]
      exact ih (rad * 2) best fun r1 hr1 => h r1 (by simp [hr1])

/-- Any single attempt's final list is capped at eight places. -/
theorem googleAttemptFinal_length_le (log10 : ℚ → ℚ)
    (dist : Coordinates → Coordinates → ℚ) (coords : Coordinates)
    (excl : List String) (cats : Option (List String))
    (r : GoogleAttemptResponse) (rad : ℚ) :
    (googleAttemptFinal log10 dist coords excl cats r rad).length ≤ 8 := by
  simp only [googleAttemptFinal, List.length_take]
  omega

/-- The Google loop never returns fewer places than the final list of any
non-throwing remaining attempt: the `k`-th remaining attempt runs at radius
`rad * 2 ^ k`, and an early return carries eight places, which no capped
attempt can beat. -/
theorem googleLoop_ge_attempt (log10 : ℚ → ℚ)
    (dist : Coordinates → Coordinates → ℚ) (coords : Coordinates)
    (excl : List String) (cats : Option (List String)) :
    ∀ (rs : List GoogleAttemptResponse) (rad : ℚ) (best : Option RecResult)
      (k : ℕ) (hk : k < rs.length),
      (rs.get ⟨k, hk⟩).throws = false →
      (googleAttemptFinal log10 dist coords excl cats (rs.get ⟨k, hk⟩)
          (rad * 2 ^ k)).length ≤
        (googleLoop log10 dist coords excl cats rs rad best).places.length := by
  intro rs
  induction rs with
  | nil =>
    intro rad best k hk
    exact absurd hk (by simp)
  | cons r rest ih =>
    intro rad best k hk hkthrow
    cases k with
    | zero =>
      have hget0 : (r :: rest).get ⟨0, hk⟩ = r := rfl
      rw [hget0] at hkthrow ⊢
      have hpow : rad * 2 ^ (0 : ℕ) = rad := by ring
      rw [hpow]
      rw [googleLoop_cons_eq log10 dist coords excl cats r rest rad best
        hkthrow]
      set F := googleAttemptFinal log10 dist coords excl cats r rad with hF
      set city := googleAttemptCity r with hcity
      cases best with
      | none =>
        simp only []
        by_cases h8 : 8 ≤ F.length
        · rw [if_pos h8]
          exact le_rfl
        · rw [if_neg h8]
          by_cases hrest : rest.isEmpty
          · rw [if_neg (by simp [hrest])]
            exact le_rfl
          · rw [if_pos (by simp [hrest])]
            have := googleLoop_ge_best log10 dist coords excl cats rest
              (rad * 2) ⟨city, F⟩
            simpa using this
      | some b =>
        simp only []
        by_cases hlt : b.places.length < F.length
        · rw [if_pos hlt]
          by_cases h8 : 8 ≤ F.length
          · rw [if_pos h8]
            exact le_rfl
          · rw [if_neg h8]
            by_cases hrest : rest.isEmpty
            · rw [if_neg (by simp [hrest])]
              exact le_rfl
            · rw [if_pos (by simp [hrest])]
              have := googleLoop_ge_best log10 dist coords excl cats rest
                (rad * 2) ⟨city, F⟩
              simpa using this
        · rw [if_neg hlt]
          have hFb : F.length ≤ b.places.length := by omega
          by_cases h8 : 8 ≤ F.length
          · rw [if_pos h8]
            exact hFb
          · rw [if_neg h8]
            by_cases hrest : rest.isEmpty
            · rw [if_neg (by simp [hrest])]
              exact hFb
            · rw [if_pos (by simp [hrest])]
              have := googleLoop_ge_best log10 dist coords excl cats rest
                (rad * 2) b
              exact le_trans hFb this
    | succ j =>
      have hj : j < rest.length := by
        have hk2 := hk
        simp only [List.length_cons] at hk2
        omega
      have hget : (r :: rest).get ⟨j + 1, hk⟩ = rest.get ⟨j, hj⟩ := rfl
      rw [hget] at hkthrow ⊢
      have hpow : rad * 2 ^ (j + 1) = rad * 2 * 2 ^ j := by ring
      rw [hpow]
      have hrest : rest.isEmpty = false := by
        cases rest with
        | nil => exact absurd hj (by simp)
        | cons a l => rfl
      have hcap := googleAttemptFinal_length_le log10 dist coords excl cats
        (rest.get ⟨j, hj⟩) (rad * 2 * 2 ^ j)
      by_cases hthrow : r.throws = true
      · rw [googleLoop_throw_cont log10 dist coords excl cats r rest rad best
          hthrow hrest]
        exact ih (rad * 2) best j hj hkthrow
      · have hthrow2 : r.throws = false := by simpa using hthrow
        rw [googleLoop_cons_eq log10 dist coords excl cats r rest rad best
          hthrow2]
        set F := googleAttemptFinal log10 dist coords excl cats r rad with hF
        set city := googleAttemptCity r with hcity
        cases best with
        | none =>
          simp only []
          by_cases h8 : 8 ≤ F.length
          · rw [if_pos h8]
            exact hcap.trans h8
          · rw [if_neg h8]
            rw [if_pos (by simp [hrest])]
            exact ih (rad * 2) (some ⟨city, F⟩) j hj hkthrow
        | some b =>
          simp only []
          by_cases hlt : b.places.length < F.length
          · rw [if_pos hlt]
            by_cases h8 : 8 ≤ F.length
            · rw [if_pos h8]
              exact hcap.trans h8
            · rw [if_neg h8]
              rw [if_pos (by simp [hrest])]
              exact ih (rad * 2) (some ⟨city, F⟩) j hj hkthrow
          · rw [if_neg hlt]
            have hFb : F.length ≤ b.places.length := by omega
            by_cases h8 : 8 ≤ F.length
            · rw [if_pos h8]
              exact hcap.trans (h8.trans hFb)
            · rw [if_neg h8]
              rw [if_pos (by simp [hrest])]
              exact ih (rad * 2) (some b) j hj hkthrow

/-- Every result of the Foursquare retry loop is the empty result, the
Google-path delegate's result, or a result whose places one single remaining
attempt derives through a terminal branch of the loop. -/
theorem fsqLoop_cases (log10 : ℚ → ℚ) (dist : Coordinates → Coordinates → ℚ)
    (coords : Coordinates) (searchQuery : Option String) (radiusKm : ℚ)
    (hotAndNew : Bool) (excl : List String) (cats : List String)
    (googleOracle : ℕ → GoogleAttemptResponse) (city : String) :
    ∀ (rs : List FsqAttemptResponse) (rad : ℚ),
      (fsqLoop log10 dist coords searchQuery radiusKm hotAndNew excl cats
          googleOracle city rs rad).places = [] ∨
      fsqLoop log10 dist coords searchQuery radiusKm hotAndNew excl cats
          googleOracle city rs rad =
        getRecommendations log10 dist coords searchQuery radiusKm hotAndNew
          excl (some cats) googleOracle ∨
      (∃ r ∈ rs, fsqAttemptDerives log10 excl cats r
        (fsqLoop log10 dist coords searchQuery radiusKm hotAndNew excl cats
          googleOracle city rs rad).places) := by
  intro rs
  induction rs with
  | nil =>
    intro rad
    left
    rfl
  | cons r rest ih =>
    intro rad
    simp only [fsqLoop]
    split_ifs <;>
      first
      | exact Or.inl rfl
      | exact Or.inr (Or.inl rfl)
      | exact Or.inr (Or.inr ⟨r, List.mem_cons_self r rest, Or.inl rfl⟩)
      | exact Or.inr (Or.inr ⟨r, List.mem_cons_self r rest,
          Or.inr (Or.inl rfl)⟩)
      | exact Or.inr (Or.inr ⟨r, List.mem_cons_self r rest,
          Or.inr (Or.inr (Or.inl rfl))⟩)
      | (rcases ih (rad * (3 / 2)) with h | h | h
         · exact Or.inl h
         · exact Or.inr (Or.inl h)
         · obtain ⟨r1, hr1, hd⟩ := h
           exact Or.inr (Or.inr ⟨r1, List.mem_cons_of_mem r hr1, hd⟩))
      | (split
         · split
           · rename_i o heq h8
             exact Or.inr (Or.inr ⟨r, List.mem_cons_self r rest,
               Or.inr (Or.inr (Or.inr ⟨o, heq, Or.inr rfl⟩))⟩)
           · rename_i o heq h8
             exact Or.inr (Or.inr ⟨r, List.mem_cons_self r rest,
               Or.inr (Or.inr (Or.inr ⟨o, heq, Or.inl rfl⟩))⟩)
         · exact Or.inr (Or.inr ⟨r, List.mem_cons_self r rest,
             Or.inr (Or.inl rfl)⟩))

/-- C2 (amended): both engines are total functions of their per-attempt
responses (five Google attempts, three Foursquare attempts, the latter
possibly delegating to a five-attempt Google fallback), so termination is
definitional.  The Google path returns the best (largest) result set
observed across its attempts: its result is never smaller than the final
set of any non-throwing attempt `k` (run at the doubled radius
`adjusted * 2 ^ k`), even when `minResults` is never reached — and it
returns the empty result rather than raising when every attempt throws.
The Foursquare path does not track a best set across attempts: its result
is always the empty result, the Google delegate's result, or a result
derived from one single attempt's terminal branch; a provider error
escaping on the first attempt yields the empty result rather than raising,
and so does the run whose Foursquare attempts all come up empty while every
Google-fallback attempt throws — even when an earlier Foursquare attempt
had observed a nonempty candidate set (see the counterexample). -/
theorem retry_best_effort :
    (∀ (log10 : ℚ → ℚ) (dist : Coordinates → Coordinates → ℚ)
       (coords : Coordinates) (searchQuery : Option String) (radiusKm : ℚ)
       (hotAndNew : Bool) (excl : List String) (cats : Option (List String))
       (oracle : ℕ → GoogleAttemptResponse) (k : ℕ), k < 5 →
      (oracle k).throws = false →
      (googleAttemptFinal log10 dist coords excl cats (oracle k)
          ((if !excl.isEmpty then radiusKm * (6 / 5) else radiusKm) *
            2 ^ k)).length ≤
        (getRecommendations log10 dist coords searchQuery radiusKm hotAndNew
          excl cats oracle).places.length) ∧
    (∀ (log10 : ℚ → ℚ) (dist : Coordinates → Coordinates → ℚ)
       (coords : Coordinates) (searchQuery : Option String) (radiusKm : ℚ)
       (hotAndNew : Bool) (excl : List String) (cats : Option (List String))
       (oracle : ℕ → GoogleAttemptResponse),
      (∀ n, (oracle n).throws = true) →
      (getRecommendations log10 dist coords searchQuery radiusKm hotAndNew
        excl cats oracle).places = []) ∧
    (∀ (log10 : ℚ → ℚ) (dist : Coordinates → Coordinates → ℚ)
       (coords : Coordinates) (searchQuery : Option String) (radiusKm : ℚ)
       (hotAndNew : Bool) (excl : List String) (cats : List String)
       (geocodeCity : Option String) (oracle : ℕ → FsqAttemptResponse)
       (googleOracle : ℕ → GoogleAttemptResponse),
      (getRecommendationsWithFoursquare log10 dist coords searchQuery
          radiusKm hotAndNew excl cats geocodeCity oracle
          googleOracle).places = [] ∨
      getRecommendationsWithFoursquare log10 dist coords searchQuery radiusKm
          hotAndNew excl cats geocodeCity oracle googleOracle =
        getRecommendations log10 dist coords searchQuery radiusKm hotAndNew
          excl (some cats) googleOracle ∨
      (∃ k, k < 3 ∧ fsqAttemptDerives log10 excl cats (oracle k)
        (getRecommendationsWithFoursquare log10 dist coords searchQuery
          radiusKm hotAndNew excl cats geocodeCity oracle
          googleOracle).places)) ∧
    (∀ (log10 : ℚ → ℚ) (dist : Coordinates → Coordinates → ℚ)
       (coords : Coordinates) (searchQuery : Option String) (radiusKm : ℚ)
       (hotAndNew : Bool) (excl : List String) (cats : List String)
       (geocodeCity : Option String) (oracle : ℕ → FsqAttemptResponse)
       (googleOracle : ℕ → GoogleAttemptResponse),
      (oracle 0).throws = true →
      (getRecommendationsWithFoursquare log10 dist coords searchQuery
        radiusKm hotAndNew excl cats geocodeCity oracle
        googleOracle).places = []) ∧
    (∀ (log10 : ℚ → ℚ) (dist : Coordinates → Coordinates → ℚ)
       (coords : Coordinates) (searchQuery : Option String) (radiusKm : ℚ)
       (hotAndNew : Bool) (excl : List String) (cats : List String)
       (geocodeCity : Option String) (oracle : ℕ → FsqAttemptResponse)
       (googleOracle : ℕ → GoogleAttemptResponse),
      (∀ n, (oracle n).throws = false ∧ (oracle n).fsq = []) →
      (∀ n, (googleOracle n).throws = true) →
      (getRecommendationsWithFoursquare log10 dist coords searchQuery
        radiusKm hotAndNew excl cats geocodeCity oracle
        googleOracle).places = []) := by
  refine ⟨?_, ?_, ?_, ?_, ?_⟩
  · intro log10 dist coords searchQuery radiusKm hotAndNew excl cats oracle k
      hk5 hkthrow
    simp only [getRecommendations]
    have hk : k < ((List.range 5).map oracle).length := by simpa using hk5
    have hget : ((List.range 5).map oracle).get ⟨k, hk⟩ = oracle k := by
      simp
    have h := googleLoop_ge_attempt log10 dist coords excl cats
      ((List.range 5).map oracle)
      (if !excl.isEmpty then radiusKm * (6 / 5) else radiusKm) none k hk
    rw [hget] at h
    exact h hkthrow
  · intro log10 dist coords searchQuery radiusKm hotAndNew excl cats oracle
      hall
    simp only [getRecommendations]
    rw [googleLoop_all_throws log10 dist coords excl cats
      ((List.range 5).map oracle) _ none
      (fun r1 hr1 => by
        obtain ⟨n, hn, hrn⟩ := List.mem_map.1 hr1
        rw [← hrn]
        exact hall n)]
    rfl
  · intro log10 dist coords searchQuery radiusKm hotAndNew excl cats
      geocodeCity oracle googleOracle
    cases geocodeCity with
    | none =>
      simp only [getRecommendationsWithFoursquare]
      rcases fsqLoop_cases log10 dist coords searchQuery radiusKm hotAndNew
          excl cats googleOracle "Unknown Location"
          ((List.range 3).map oracle) radiusKm with h | h | h
      · exact Or.inl h
      · exact Or.inr (Or.inl h)
      · obtain ⟨r1, hr1, hd⟩ := h
        obtain ⟨n, hn, hrn⟩ := List.mem_map.1 hr1
        rw [← hrn] at hd
        exact Or.inr (Or.inr ⟨n, List.mem_range.1 hn, hd⟩)
    | some c =>
      simp only [getRecommendationsWithFoursquare]
      rcases fsqLoop_cases log10 dist coords searchQuery radiusKm hotAndNew
          excl cats googleOracle
          (if c.isEmpty then "Unknown Location" else c)
          ((List.range 3).map oracle) radiusKm with h | h | h
      · exact Or.inl h
      · exact Or.inr (Or.inl h)
      · obtain ⟨r1, hr1, hd⟩ := h
        obtain ⟨n, hn, hrn⟩ := List.mem_map.1 hr1
        rw [← hrn] at hd
        exact Or.inr (Or.inr ⟨n, List.mem_range.1 hn, hd⟩)
  · intro log10 dist coords searchQuery radiusKm hotAndNew excl cats
      geocodeCity oracle googleOracle h0
    have hrange : (List.range 3).map oracle =
        oracle 0 :: [oracle 1, oracle 2] := rfl
    simp only [getRecommendationsWithFoursquare, hrange]
    rw [fsqLoop, if_pos h0]
  · intro log10 dist coords searchQuery radiusKm hotAndNew excl cats
      geocodeCity oracle googleOracle hfsq hgoogle
    have hrange : (List.range 3).map oracle =
        [oracle 0, oracle 1, oracle 2] := rfl
    have hgfall : getRecommendations log10 dist coords searchQuery radiusKm
        hotAndNew excl (some cats) googleOracle = ⟨"Unknown Area", []⟩ := by
      simp only [getRecommendations]
      rw [googleLoop_all_throws log10 dist coords excl (some cats)
        ((List.range 5).map googleOracle) _ none
        (fun r hr => by
          obtain ⟨n, hn, hrn⟩ := List.mem_map.1 hr
          rw [← hrn]
          exact hgoogle n)]
      rfl
    simp only [getRecommendationsWithFoursquare, hrange]
    rw [fsqLoop, if_neg (by simp [(hfsq 0).1]),
      if_pos (by simp [(hfsq 0).2])]
    rw [if_pos (by simp)]
    rw [fsqLoop, if_neg (by simp [(hfsq 1).1]),
      if_pos (by simp [(hfsq 1).2])]
    rw [if_pos (by simp)]
    rw [fsqLoop, if_neg (by simp [(hfsq 2).1]),
      if_pos (by simp [(hfsq 2).2])]
    rw [if_neg (by simp)]
    rw [hgfall]

/-- Witness for C2 (amended): concretely, a Google run is at least as large
as its first attempt's final set (`k = 0 < 5`, attempt not throwing); an
all-throwing Google run returns the empty set; a concrete Foursquare run
satisfies the single-attempt-or-delegate disjunction; a first-attempt
rejection returns the empty set; and the empty-attempts run with a failing
fallback returns the empty set. -/
theorem retry_best_effort_witness :
    ((googleAttemptFinal log10Model distModel ⟨0, 0⟩ [] none (unratedOracle 0)
        ((if !([] : List String).isEmpty then (4 : ℚ) * (6 / 5) else 4) *
          2 ^ (0 : ℕ))).length ≤
      (getRecommendations log10Model distModel ⟨0, 0⟩ none 4 false [] none
        unratedOracle).places.length) ∧
    (getRecommendations log10Model distModel ⟨0, 0⟩ none 4 false [] none
      googleOracleThrows).places = [] ∧
    ((getRecommendationsWithFoursquare log10Model distModel ⟨0, 0⟩ none 4
        false [] [] (some "Testville") emptyFsqOracle
        googleOracleThrows).places = [] ∨
      getRecommendationsWithFoursquare log10Model distModel ⟨0, 0⟩ none 4
          false [] [] (some "Testville") emptyFsqOracle googleOracleThrows =
        getRecommendations log10Model distModel ⟨0, 0⟩ none 4 false []
          (some []) googleOracleThrows ∨
      (∃ k, k < 3 ∧ fsqAttemptDerives log10Model [] [] (emptyFsqOracle k)
        (getRecommendationsWithFoursquare log10Model distModel ⟨0, 0⟩ none 4
          false [] [] (some "Testville") emptyFsqOracle
          googleOracleThrows).places)) ∧
    (getRecommendationsWithFoursquare log10Model distModel ⟨0, 0⟩ none 4
      false [] [] (some "Testville") throwingFsqOracle
      googleOracleThrows).places = [] ∧
    (getRecommendationsWithFoursquare log10Model distModel ⟨0, 0⟩ none 4
      false [] [] (some "Testville") emptyFsqOracle
      googleOracleThrows).places = [] := by
  refine ⟨?_, ?_, ?_, ?_, ?_⟩
  · exact retry_best_effort.1 log10Model distModel ⟨0, 0⟩ none 4 false [] none
      unratedOracle 0 (by decide) (by decide)
  · exact retry_best_effort.2.1 log10Model distModel ⟨0, 0⟩ none 4 false []
      none googleOracleThrows (fun n => rfl)
  · exact retry_best_effort.2.2.1 log10Model distModel ⟨0, 0⟩ none 4 false
      [] [] (some "Testville") emptyFsqOracle googleOracleThrows
  · exact retry_best_effort.2.2.2.1 log10Model distModel ⟨0, 0⟩ none 4 false
      [] [] (some "Testville") throwingFsqOracle googleOracleThrows rfl
  · exact retry_best_effort.2.2.2.2 log10Model distModel ⟨0, 0⟩ none 4 false
      [] [] (some "Testville") emptyFsqOracle googleOracleThrows
      (fun n => ⟨rfl, rfl⟩) (fun n => rfl)

/-- Counterexample for C2 as stated: the Foursquare path observes a
seven-place candidate set on its first attempt, yet — its later attempts
coming up empty and the Google fallback failing — returns the empty result
instead of the best set observed across attempts. -/
theorem retry_best_effort_counterexample :
    (fsqAttemptPlaces log10Model [] sevenCafesFsq).length = 7 ∧
    getRecommendationsWithFoursquare log10Model distModel ⟨0, 0⟩ none 4 false
      [] [] (some "Testville") bestLostOracle googleOracleThrows =
      ⟨"Unknown Area", []⟩ := by
  constructor
  · decide
  · decide

/-! ### C10: the minimum-rating filter and unrated places -/

/-- C10 (amended): a place with an absent rating string is treated as rating
0 and passes the phase-4 filter (`rating === 0` short-circuits the minimum),
and such unrated places do reach final Google-path results; a rating string
that does not parse as a number, however, yields `NaN`, which fails both
comparisons, so the filter drops it rather than treating it as 0 (see the
counterexample) — within `getRecommendations` every constructed rating
string is either absent or the decimal spelling of a provider rating, so the
`NaN` case cannot arise from pipeline data. -/
theorem rating_filter_unrated :
    (∀ m : ℚ, ratingFilterKeeps none m = true) ∧
    quietPlace ∈ (getRecommendations log10Model distModel ⟨0, 0⟩ none 4 false
      [] none unratedOracle).places := by
  constructor
  · intro m
    simp [ratingFilterKeeps]
  · decide

/-- Counterexample for C10 as stated: an unparseable rating string is not
treated as 0 — `parseFloat` gives `NaN`, both comparisons fail, and the
filter drops the place. -/
theorem rating_filter_unrated_counterexample :
    ratingFilterKeeps (some "abc") (7 / 2) = false := by
  decide

end ClaimProofs
